import Mathlib

/-!
# Verification of the restaurant_reports order store, identifier
reconciliation, appeals ledger and notification cap

Shallow embedding of the relevant parts of `src/app/main.py`.

Modelling conventions:
* Python `str` values are Lean `String`s.  Python's string primitives are
  modelled on the character list `s.data`: `str.strip()` is `pyStrip`
  (removing leading/trailing characters satisfying `Char.isWhitespace`;
  Python also strips a few rarer whitespace code points, irrelevant here),
  `s[1:]` is `dropOne`, `s[:n]` is `pyTake n`, `s.startswith("#")` is
  `startsWithHash`, `str.isdigit()` is `pyIsdigit` (ASCII digits).
* JSON rows (dicts of strings) are association lists `List (String × String)`
  with Python-dict semantics: lookup returns the first binding, assignment
  replaces the first binding in place or appends a fresh one, iteration and
  `dict.values()` follow insertion order.
* Python `float` money amounts are modelled as exact rationals `ℚ`
  (IEEE rounding is not modelled; `round(x, 2)` is modelled as half-up
  rounding to two decimals, `pyRound2`).
* Timestamps (`datetime`) are integer epoch seconds; `timedelta.days` is
  floor division by 86400 (`Int.fdiv`), matching Python's floor semantics.
* File/HTTP plumbing is abstracted away: every endpoint becomes a pure
  function from the decoded stored state and the request parameters to
  `Except ApiError` of the new stored state; raising `HTTPException`
  before the state is written back is `Except.error`.
-/

set_option maxHeartbeats 1000000

namespace RestaurantReports

/-! ## Python string primitives -/

/-- Left trim of a character list (Python `lstrip`, for the whitespace
characters recognised by `Char.isWhitespace`). -/
def ltrim (l : List Char) : List Char := l.dropWhile Char.isWhitespace

/-- Right trim of a character list (Python `rstrip`). -/
def rtrim (l : List Char) : List Char := (l.reverse.dropWhile Char.isWhitespace).reverse

/-- Python `str.strip()`. -/
def pyStrip (s : String) : String := ⟨rtrim (ltrim s.data)⟩

/-- Python `str.isdigit()` for ASCII strings: non-empty and all digits. -/
def pyIsdigit (s : String) : Bool := s ≠ "" && s.data.all Char.isDigit

/-- Python `s.startswith("#")`. -/
def startsWithHash (s : String) : Bool :=
  match s.data with
  | '#' :: _ => true
  | _ => false

/-- Python `s[1:]`. -/
def dropOne (s : String) : String := ⟨s.data.drop 1⟩

/-- Python `s[:n]`. -/
def pyTake (n : Nat) (s : String) : String := ⟨s.data.take n⟩

theorem dropWhile_dropWhile (p : Char → Bool) (l : List Char) :
    (l.dropWhile p).dropWhile p = l.dropWhile p := by
  induction l with
  | nil => rfl
  | cons a l ih =>
    by_cases h : p a
    · simp [List.dropWhile, h, ih]
    · simp [List.dropWhile, h]

theorem head?_dropWhile (p : Char → Bool) (l : List Char) :
    ∀ x ∈ (l.dropWhile p).head?, ¬ p x := by
  induction l with
  | nil => simp [List.dropWhile]
  | cons a l ih =>
    by_cases h : p a
    · simpa [List.dropWhile, h] using ih
    · simp only [List.dropWhile, h, Bool.false_eq_true, if_false, List.head?_cons,
        Option.mem_def, Option.some.injEq]
      rintro x rfl
      simp [h]

theorem dropWhile_eq_self_of_head? (p : Char → Bool) (l : List Char)
    (h : ∀ x ∈ l.head?, ¬ p x) : l.dropWhile p = l := by
  cases l with
  | nil => rfl
  | cons a l =>
    have := h a (by simp)
    simp [List.dropWhile, this]

theorem dropWhile_suffix (p : Char → Bool) (l : List Char) :
    l.dropWhile p <:+ l := by
  induction l with
  | nil => simp
  | cons a l ih =>
    by_cases h : p a
    · simp only [List.dropWhile, h]
      exact ih.trans (List.suffix_cons a l)
    · simp [List.dropWhile, h]

theorem ltrim_ltrim (l : List Char) : ltrim (ltrim l) = ltrim l :=
  dropWhile_dropWhile _ l

theorem rtrim_rtrim (l : List Char) : rtrim (rtrim l) = rtrim l := by
  unfold rtrim
  rw [List.reverse_reverse, dropWhile_dropWhile]

theorem head?_rtrim_ltrim (l : List Char) :
    ∀ x ∈ (rtrim (ltrim l)).head?, ¬ x.isWhitespace := by
  intro x hx
  have hsuf : ltrim (ltrim l).reverse <:+ (ltrim l).reverse := dropWhile_suffix _ _
  have hpre : rtrim (ltrim l) <+: ltrim l := by
    have := hsuf.reverse
    simpa [rtrim, ltrim] using this
  obtain ⟨t, ht⟩ := hpre
  have hhead : x ∈ (ltrim l).head? := by
    rw [← ht]
    cases h : rtrim (ltrim l) with
    | nil => simp [h] at hx
    | cons a r =>
      rw [h] at hx
      simp only [List.head?_cons, Option.mem_def, Option.some.injEq] at hx
      simp [hx]
  exact head?_dropWhile _ l x hhead

theorem ltrim_rtrim_ltrim (l : List Char) :
    ltrim (rtrim (ltrim l)) = rtrim (ltrim l) :=
  dropWhile_eq_self_of_head? _ _ (head?_rtrim_ltrim l)

/-- Python `strip` is idempotent. -/
theorem pyStrip_pyStrip (s : String) : pyStrip (pyStrip s) = pyStrip s := by
  show (⟨rtrim (ltrim (rtrim (ltrim s.data)))⟩ : String) = ⟨rtrim (ltrim s.data)⟩
  rw [ltrim_rtrim_ltrim, rtrim_rtrim]

/-! ## The Didi display-number classifier (`main.py:1653-1662`) -/

/-- Model of `_normalize_didi_display_num` (`main.py:1645-1650`): strip whitespace
and a leading `#`. -/
def _normalize_didi_display_num (display_num : String) : String :=
  let s := pyStrip display_num
  if startsWithHash s then dropOne s else s

/-- Model of `_looks_like_didi_display_num` (`main.py:1653-1662`): true when the code
is a Didi displayNum (`#379001` or `379001`) and must not be overwritten by
the long API id. -/
def _looks_like_didi_display_num (cod : String) : Bool :=
  let s := pyStrip cod
  if s = "" || decide (s.length > 15) then false
  else if startsWithHash s && decide (s.length > 1) && pyIsdigit (dropOne s) then true
  else if pyIsdigit s && decide (4 ≤ s.length) && decide (s.length ≤ 10) then true
  else false

/-- The classifier exactly as the spec claim words it: a digit string between
4 and 10 characters long, optionally prefixed with `#`. -/
def specStableShortCode (s : String) : Bool :=
  let t := if startsWithHash s then dropOne s else s
  pyIsdigit t && decide (4 ≤ t.length) && decide (t.length ≤ 10)

/-- The rule the source actually implements, after stripping whitespace:
either `#` followed by at least one digit with total length at most 15, or
an unprefixed digit string of length 4 to 10. -/
def srcStableShortCode (s : String) : Bool :=
  let t := pyStrip s
  (startsWithHash t && decide (2 ≤ t.length) && decide (t.length ≤ 15)
      && pyIsdigit (dropOne t))
    || (pyIsdigit t && decide (4 ≤ t.length) && decide (t.length ≤ 10))

/-- C9 counterexample: on `"#1"` the code's classifier answers `true`, but
the claim's "digit string between 4 and 10 characters, optionally
`#`-prefixed" answers `false`.  The code also accepts `#`-prefixed digit
strings of 1 to 3 and 11 to 14 digits. -/
theorem c9_counterexample :
    _looks_like_didi_display_num "#1" = true ∧ specStableShortCode "#1" = false := by
  constructor <;> rfl

theorem length_ne_zero_of_ne_empty (s : String) (h : s ≠ "") : s.length ≠ 0 := by
  intro hlen
  apply h
  cases s with
  | mk data =>
    cases data with
    | nil => rfl
    | cons a l => simp [String.length] at hlen

/-- C9 (amended): for every string, `_looks_like_didi_display_num` returns
true exactly when, after stripping surrounding whitespace, the code is
either `#` followed by one or more digits with total length at most 15, or
an unprefixed digit string of 4 to 10 characters. -/
theorem c9_classifier_characterization (s : String) :
    _looks_like_didi_display_num s = srcStableShortCode s := by
  unfold _looks_like_didi_display_num srcStableShortCode
  set t := pyStrip s with ht
  by_cases h0 : t = ""
  · have hW : startsWithHash t = false := by
      rw [h0]; rfl
    have hD : pyIsdigit t = false := by
      rw [h0]; rfl
    simp [h0, hW, hD]
  · have hlen0 : t.length ≠ 0 := length_ne_zero_of_ne_empty t h0
    by_cases h15 : 15 < t.length <;> by_cases h1 : 1 < t.length <;>
      by_cases h2 : 2 ≤ t.length <;> by_cases h4 : 4 ≤ t.length <;>
      by_cases h10 : t.length ≤ 10 <;>
      cases hW : startsWithHash t <;> cases hD : pyIsdigit t <;>
      cases hD1 : pyIsdigit (dropOne t) <;>
      first
        | omega
        | simp [h0, hW, hD, hD1, h15, h1, h2, h4, h10,
            show t.length ≤ 15 from by omega]
        | simp [h0, hW, hD, hD1, h15, h1, h2, h4, h10]

/-! ## Python dicts as insertion-ordered association lists -/

/-- Python `d.get(k)`: first binding of `k`, if any. -/
def dictGet {α : Type} (m : List (String × α)) (k : String) : Option α :=
  match m with
  | [] => none
  | (k', v) :: rest => if k' = k then some v else dictGet rest k

/-- Python `d[k] = v`: replace the first binding of `k` in place, or append
a fresh binding (dicts preserve insertion order). -/
def dictSet {α : Type} (m : List (String × α)) (k : String) (v : α) : List (String × α) :=
  match m with
  | [] => [(k, v)]
  | (k', v') :: rest => if k' = k then (k, v) :: rest else (k', v') :: dictSet rest k v

/-- Python `list(d.values())`. -/
def dictVals {α : Type} (m : List (String × α)) : List α := m.map (·.2)

/-- Python `list(d.keys())`. -/
def dictKeys {α : Type} (m : List (String × α)) : List String := m.map (·.1)

theorem dictGet_dictSet_self {α : Type} (m : List (String × α)) (k : String) (v : α) :
    dictGet (dictSet m k v) k = some v := by
  induction m with
  | nil => simp [dictGet, dictSet]
  | cons p rest ih =>
    obtain ⟨k', v'⟩ := p
    by_cases h : k' = k
    · simp [dictGet, dictSet, h]
    · simp [dictGet, dictSet, h, ih]

theorem dictGet_dictSet_ne {α : Type} (m : List (String × α)) (k k' : String) (v : α)
    (h : k' ≠ k) : dictGet (dictSet m k v) k' = dictGet m k' := by
  have h' : k ≠ k' := fun hh => h hh.symm
  induction m with
  | nil => simp [dictGet, dictSet, h']
  | cons p rest ih =>
    obtain ⟨k'', v''⟩ := p
    by_cases hk : k'' = k
    · subst hk
      simp [dictGet, dictSet, h']
    · by_cases hk2 : k'' = k'
      · simp [dictGet, dictSet, hk, hk2, h]
      · simp [dictGet, dictSet, hk, hk2, ih]

theorem dictSet_eq_self {α : Type} (m : List (String × α)) (k : String) (v : α)
    (h : dictGet m k = some v) : dictSet m k v = m := by
  induction m with
  | nil => simp [dictGet] at h
  | cons p rest ih =>
    obtain ⟨k', v'⟩ := p
    by_cases hk : k' = k
    · subst hk
      simp [dictGet] at h
      simp [dictSet, h]
    · simp [dictGet, hk] at h
      simp [dictSet, hk, ih h]

theorem dictSet_of_get_none {α : Type} (m : List (String × α)) (k : String) (v : α)
    (h : dictGet m k = none) : dictSet m k v = m ++ [(k, v)] := by
  induction m with
  | nil => simp [dictSet]
  | cons p rest ih =>
    obtain ⟨k', v'⟩ := p
    by_cases hk : k' = k
    · simp [dictGet, hk] at h
    · simp [dictGet, hk] at h
      simp [dictSet, hk, ih h]

theorem mem_dictVals_of_dictGet {α : Type} (m : List (String × α)) (k : String) (v : α)
    (h : dictGet m k = some v) : v ∈ dictVals m := by
  induction m with
  | nil => simp [dictGet] at h
  | cons p rest ih =>
    obtain ⟨k', v'⟩ := p
    by_cases hk : k' = k
    · simp [dictGet, hk] at h
      simp [dictVals, h]
    · simp [dictGet, hk] at h
      simp [dictVals]
      right
      simpa [dictVals] using ih h

theorem isSome_dictGet_dictSet {α : Type} (m : List (String × α)) (k k' : String) (v : α)
    (h : (dictGet m k').isSome) : (dictGet (dictSet m k v) k').isSome := by
  by_cases hk : k' = k
  · subst hk
    simp [dictGet_dictSet_self]
  · rwa [dictGet_dictSet_ne _ _ _ _ hk]

/-- Row of the deliverys cache: a decoded JSON dict of strings. -/
abbrev Row := List (String × String)

/-- The `existing_by_id` dict: merge key to row, insertion ordered. -/
abbrev AMapR := List (String × Row)

/-- Model of `(row.get(k) or "")`. -/
def rowGet (r : Row) (k : String) : String := (dictGet r k).getD ""

/-- Model of `row[k] = v` (on a fresh `dict(row)` copy, as the merge does). -/
def rowSet (r : Row) (k : String) (v : String) : Row := dictSet r k v

/-- Model of `(row.get("delivery_fecha") or "").strip()[:10]`. -/
def rowFecha10 (r : Row) : String := pyTake 10 (pyStrip (rowGet r "delivery_fecha"))

/-- Model of `(row.get("delivery_id") or "").strip()`: the merge key. -/
def rowDid (r : Row) : String := pyStrip (rowGet r "delivery_id")

/-- Model of `(row.get("delivery_codigolimadelivery") or "")`: the channel order code. -/
def rowCod (r : Row) : String := rowGet r "delivery_codigolimadelivery"

theorem rowGet_rowSet_self (r : Row) (k v : String) : rowGet (rowSet r k v) k = v := by
  simp [rowGet, rowSet, dictGet_dictSet_self]

theorem rowGet_rowSet_ne (r : Row) (k k' v : String) (h : k' ≠ k) :
    rowGet (rowSet r k v) k' = rowGet r k' := by
  simp [rowGet, rowSet, dictGet_dictSet_ne _ _ _ _ h]

theorem rowSet_rowGet_self (r : Row) (k : String) (h : rowGet r k ≠ "") :
    rowSet r k (rowGet r k) = r := by
  cases hg : dictGet r k with
  | none => simp [rowGet, hg] at h
  | some v =>
    have : rowGet r k = v := by simp [rowGet, hg]
    rw [this]
    exact dictSet_eq_self r k v (by rw [hg])

/-! ## The merge of `_save_deliverys_for_local` (`main.py:1665-1719`)

The `consultation_date` branch of `_save_deliverys_for_local`: load the
existing partition file, index its rows, merge the incoming report rows,
write the values back.  (The no-`consultation_date` branch at
`main.py:1721-1755` runs the identical per-file merge on rows grouped by
their own `delivery_fecha`.)  File I/O and the `fetched_at` wrapper are
abstracted; non-dict JSON entries are not modelled. -/

/-- Keys of the shape `__existing_{i}` / `__new_{n}` that the merge reserves
for rows without a `delivery_id`. -/
def startsDunder (s : String) : Bool :=
  match s.data with
  | '_' :: '_' :: _ => true
  | _ => false

/-- Indexing phase: `existing_by_id` built from the stored partition
(`main.py:1682-1697`).  `i` is the `enumerate` index. -/
def buildExistingGo (dateStr : String) : Nat → AMapR → List Row → AMapR
  | _, m, [] => m
  | i, m, r :: rest =>
      let m' :=
        if rowFecha10 r ≠ dateStr then m
        else
          let did := rowDid r
          dictSet m (if did = "" then "__existing_" ++ toString i else did) r
      buildExistingGo dateStr (i + 1) m' rest

/-- Model of `existing_by_id` for a stored partition. -/
def buildExisting (dateStr : String) (rows : List Row) : AMapR :=
  buildExistingGo dateStr 0 [] rows

/-- Merge one incoming row into `existing_by_id` (`main.py:1698-1716`):
date-filtered; an incoming row replaces the stored row with the same
`delivery_id` wholesale, except that a stored `delivery_codigolimadelivery`
that already looks like a Didi displayNum is copied over the incoming one;
rows without a `delivery_id` are appended under a fresh `__new_{n}` key. -/
def mergeRow (dateStr : String) (m : AMapR) (row : Row) : AMapR :=
  if rowFecha10 row ≠ dateStr then m
  else
    let did := rowDid row
    if did = "" then dictSet m ("__new_" ++ toString m.length) row
    else
      match dictGet m did with
      | some existing_row =>
          let exCod := pyStrip (rowCod existing_row)
          if _looks_like_didi_display_num exCod then
            dictSet m did (rowSet row "delivery_codigolimadelivery" exCod)
          else dictSet m did row
      | none => dictSet m did row

/-- Model of `_save_deliverys_for_local` (`main.py:1665-1719`, `consultation_date`
branch): the new partition contents, as the list of merged rows. -/
def _save_deliverys_for_local (dateStr : String) (existing data : List Row) : List Row :=
  dictVals (data.foldl (mergeRow dateStr) (buildExisting dateStr existing))

theorem startsDunder_new (t : String) : startsDunder ("__new_" ++ t) = true := rfl

theorem startsDunder_existing (t : String) : startsDunder ("__existing_" ++ t) = true := rfl

theorem ne_of_startsDunder_false {s t : String} (h : startsDunder s = false)
    (ht : startsDunder t = true) : s ≠ t := by
  intro he
  rw [he, ht] at h
  exact Bool.true_eq_false ▸ h

/-- One merge step preserves "the record under key `did` has the protected
stable code `c`". -/
theorem mergeRow_preserves_stable (dateStr did c : String) (b : Row) (m : AMapR)
    (hdid : startsDunder did = false)
    (hc : _looks_like_didi_display_num c = true)
    (hstrip : pyStrip c = c)
    (h : ∃ r, dictGet m did = some r ∧ pyStrip (rowCod r) = c) :
    ∃ r, dictGet (mergeRow dateStr m b) did = some r ∧ pyStrip (rowCod r) = c := by
  obtain ⟨r, hr, hrc⟩ := h
  unfold mergeRow
  by_cases hf : rowFecha10 b = dateStr
  · simp only [hf, ne_eq, not_true_eq_false, if_false]
    by_cases hd0 : rowDid b = ""
    · simp only [hd0, if_true]
      have hne : did ≠ "__new_" ++ toString m.length :=
        ne_of_startsDunder_false hdid (startsDunder_new _)
      rw [dictGet_dictSet_ne _ _ _ _ hne]
      exact ⟨r, hr, hrc⟩
    · simp only [hd0, if_false]
      by_cases hdd : rowDid b = did
      · rw [hdd, hr]
        simp only []
        rw [hrc, hc]
        simp only [if_true]
        refine ⟨rowSet b "delivery_codigolimadelivery" c, ?_, ?_⟩
        · exact dictGet_dictSet_self _ _ _
        · rw [rowCod, rowGet_rowSet_self]
          exact hstrip
      · have hne : did ≠ rowDid b := fun he => hdd he.symm
        cases hg : dictGet m (rowDid b) with
        | some ex =>
          simp only [hg]
          by_cases hlk : _looks_like_didi_display_num (pyStrip (rowCod ex)) = true
          · simp only [hlk, if_true]
            rw [dictGet_dictSet_ne _ _ _ _ hne]
            exact ⟨r, hr, hrc⟩
          · simp only [Bool.not_eq_true] at hlk
            simp only [hlk, Bool.false_eq_true, if_false]
            rw [dictGet_dictSet_ne _ _ _ _ hne]
            exact ⟨r, hr, hrc⟩
        | none =>
          simp only [hg]
          rw [dictGet_dictSet_ne _ _ _ _ hne]
          exact ⟨r, hr, hrc⟩
  · simp only [hf, ne_eq, not_false_eq_true, if_true]
    exact ⟨r, hr, hrc⟩

theorem foldl_mergeRow_preserves_stable (dateStr did c : String) (data : List Row)
    (m : AMapR)
    (hdid : startsDunder did = false)
    (hc : _looks_like_didi_display_num c = true)
    (hstrip : pyStrip c = c)
    (h : ∃ r, dictGet m did = some r ∧ pyStrip (rowCod r) = c) :
    ∃ r, dictGet (data.foldl (mergeRow dateStr) m) did = some r ∧ pyStrip (rowCod r) = c := by
  induction data generalizing m with
  | nil => exact h
  | cons b rest ih =>
    exact ih _ (mergeRow_preserves_stable dateStr did c b m hdid hc hstrip h)

/-- C1 (stable-code protection): if the stored partition indexes a record
under merge key `did` whose `delivery_codigolimadelivery` already looks like
a stable Didi display code, then after merging any incoming batch the record
stored under `did` still carries that same code (up to surrounding
whitespace, which the merge strips when copying it), whatever volatile ids
the batch carries in that field.  `did` is a real merge key, i.e. not of the
reserved synthetic shape `__...`. -/
theorem c1_stable_code_protection (dateStr : String) (existing data : List Row)
    (did : String) (ex : Row)
    (hdid : startsDunder did = false)
    (hex : dictGet (buildExisting dateStr existing) did = some ex)
    (hcod : _looks_like_didi_display_num (pyStrip (rowCod ex)) = true) :
    ∃ r', dictGet (data.foldl (mergeRow dateStr) (buildExisting dateStr existing)) did = some r'
      ∧ pyStrip (rowCod r') = pyStrip (rowCod ex)
      ∧ r' ∈ _save_deliverys_for_local dateStr existing data := by
  obtain ⟨r, hr, hrc⟩ :=
    foldl_mergeRow_preserves_stable dateStr did (pyStrip (rowCod ex)) data
      (buildExisting dateStr existing) hdid hcod (pyStrip_pyStrip _)
      ⟨ex, hex, rfl⟩
  exact ⟨r, hr, hrc, mem_dictVals_of_dictGet _ _ _ hr⟩

/-- C1 witness: a stored Didi order, keyed `999`, carries the stable display
code `357002`; a fresh poll of the same order reports the volatile id
`5764659591531007003`.  After the merge the stored code is still `357002`. -/
theorem c1_stable_code_protection_witness :
    ∃ r', dictGet
        ([[("delivery_id", "999"), ("delivery_fecha", "2026-01-05"),
           ("delivery_codigolimadelivery", "5764659591531007003")]].foldl
          (mergeRow "2026-01-05")
          (buildExisting "2026-01-05"
            [[("delivery_id", "999"), ("delivery_fecha", "2026-01-05"),
              ("delivery_codigolimadelivery", "357002")]])) "999" = some r'
      ∧ pyStrip (rowCod r')
          = pyStrip (rowCod [("delivery_id", "999"), ("delivery_fecha", "2026-01-05"),
              ("delivery_codigolimadelivery", "357002")])
      ∧ r' ∈ _save_deliverys_for_local "2026-01-05"
          [[("delivery_id", "999"), ("delivery_fecha", "2026-01-05"),
            ("delivery_codigolimadelivery", "357002")]]
          [[("delivery_id", "999"), ("delivery_fecha", "2026-01-05"),
            ("delivery_codigolimadelivery", "5764659591531007003")]] :=
  c1_stable_code_protection "2026-01-05"
    [[("delivery_id", "999"), ("delivery_fecha", "2026-01-05"),
      ("delivery_codigolimadelivery", "357002")]]
    [[("delivery_id", "999"), ("delivery_fecha", "2026-01-05"),
      ("delivery_codigolimadelivery", "5764659591531007003")]]
    "999" _ (by decide) (by decide) (by decide)

/-- C2 counterexample: merging whole-row replaces the stored record.  A
stored record for `delivery_id = "d1"` holds the non-empty channel code
`"abc"`; an incoming batch row for the same merge key carries an empty
code, and after the merge the stored code is empty. -/
theorem c2_counterexample :
    dictGet (buildExisting "2026-01-05"
        [[("delivery_id", "d1"), ("delivery_fecha", "2026-01-05"),
          ("delivery_codigolimadelivery", "abc")]]) "d1"
      = some [("delivery_id", "d1"), ("delivery_fecha", "2026-01-05"),
          ("delivery_codigolimadelivery", "abc")]
    ∧ rowCod [("delivery_id", "d1"), ("delivery_fecha", "2026-01-05"),
          ("delivery_codigolimadelivery", "abc")] = "abc"
    ∧ _save_deliverys_for_local "2026-01-05"
        [[("delivery_id", "d1"), ("delivery_fecha", "2026-01-05"),
          ("delivery_codigolimadelivery", "abc")]]
        [[("delivery_id", "d1"), ("delivery_fecha", "2026-01-05"),
          ("delivery_codigolimadelivery", "")]]
      = [[("delivery_id", "d1"), ("delivery_fecha", "2026-01-05"),
          ("delivery_codigolimadelivery", "")]]
    ∧ rowCod [("delivery_id", "d1"), ("delivery_fecha", "2026-01-05"),
          ("delivery_codigolimadelivery", "")] = "" := by
  refine ⟨by decide, by decide, by decide, by decide⟩

theorem isSome_dictGet_mergeRow (dateStr : String) (m : AMapR) (b : Row) (k : String)
    (h : (dictGet m k).isSome) : (dictGet (mergeRow dateStr m b) k).isSome := by
  unfold mergeRow
  by_cases hf : rowFecha10 b = dateStr
  · simp only [hf, ne_eq, not_true_eq_false, if_false]
    by_cases hd0 : rowDid b = ""
    · simp only [hd0, if_true]
      exact isSome_dictGet_dictSet _ _ _ _ h
    · simp only [hd0, if_false]
      cases hg : dictGet m (rowDid b) with
      | some ex =>
        simp only [hg]
        by_cases hlk : _looks_like_didi_display_num (pyStrip (rowCod ex)) = true
        · simp only [hlk, if_true]
          exact isSome_dictGet_dictSet _ _ _ _ h
        · simp only [Bool.not_eq_true] at hlk
          simp only [hlk, Bool.false_eq_true, if_false]
          exact isSome_dictGet_dictSet _ _ _ _ h
      | none =>
        simp only [hg]
        exact isSome_dictGet_dictSet _ _ _ _ h
  · simp only [hf, ne_eq, not_false_eq_true, if_true]
    exact h

theorem isSome_dictGet_foldl_mergeRow (dateStr : String) (data : List Row) (m : AMapR)
    (k : String) (h : (dictGet m k).isSome) :
    (dictGet (data.foldl (mergeRow dateStr) m) k).isSome := by
  induction data generalizing m with
  | nil => exact h
  | cons b rest ih => exact ih _ (isSome_dictGet_mergeRow dateStr m b k h)

/-- C2 (amended): record-level monotonicity.  Every record indexed from the
stored partition (i.e. every stored row whose `delivery_fecha` belongs to
the partition's date) is still present, under the same merge key, after
merging any incoming batch, and it appears in the written partition.  The
merge replaces matching rows wholesale — only `delivery_codigolimadelivery`
enjoys the stable-code protection of C1 — so individual non-empty fields of
a surviving record can still be blanked by an incoming row, as the
counterexample shows. -/
theorem c2_record_level_monotonicity (dateStr : String) (existing data : List Row)
    (k : String) (r : Row)
    (hk : dictGet (buildExisting dateStr existing) k = some r) :
    ∃ r', dictGet (data.foldl (mergeRow dateStr) (buildExisting dateStr existing)) k = some r'
      ∧ r' ∈ _save_deliverys_for_local dateStr existing data := by
  have hsome : (dictGet (data.foldl (mergeRow dateStr) (buildExisting dateStr existing)) k).isSome :=
    isSome_dictGet_foldl_mergeRow dateStr data _ k (by rw [hk]; rfl)
  obtain ⟨r', hr'⟩ := Option.isSome_iff_exists.mp hsome
  exact ⟨r', hr', mem_dictVals_of_dictGet _ _ _ hr'⟩

/-- C2 witness: a stored record for `delivery_id = "w2"` survives the merge
of a batch that does not mention it. -/
theorem c2_record_level_monotonicity_witness :
    ∃ r', dictGet
        ([[("delivery_id", "w3"), ("delivery_fecha", "2026-01-06")]].foldl
          (mergeRow "2026-01-06")
          (buildExisting "2026-01-06"
            [[("delivery_id", "w2"), ("delivery_fecha", "2026-01-06")]])) "w2" = some r'
      ∧ r' ∈ _save_deliverys_for_local "2026-01-06"
          [[("delivery_id", "w2"), ("delivery_fecha", "2026-01-06")]]
          [[("delivery_id", "w3"), ("delivery_fecha", "2026-01-06")]] :=
  c2_record_level_monotonicity "2026-01-06"
    [[("delivery_id", "w2"), ("delivery_fecha", "2026-01-06")]]
    [[("delivery_id", "w3"), ("delivery_fecha", "2026-01-06")]]
    "w2" [("delivery_id", "w2"), ("delivery_fecha", "2026-01-06")] (by decide)

/-- C3 counterexample: a batch containing a row without a `delivery_id` is
not idempotent — each application appends the row again under a fresh
`__new_{n}` key, duplicating it. -/
theorem c3_counterexample :
    _save_deliverys_for_local "2026-01-05"
        (_save_deliverys_for_local "2026-01-05" [] [[("delivery_fecha", "2026-01-05")]])
        [[("delivery_fecha", "2026-01-05")]]
      ≠ _save_deliverys_for_local "2026-01-05" [] [[("delivery_fecha", "2026-01-05")]] := by
  decide

theorem dictKeys_cons {α : Type} (p : String × α) (rest : List (String × α)) :
    dictKeys (p :: rest) = p.1 :: dictKeys rest := rfl

theorem dictGet_eq_none_iff {α : Type} (m : List (String × α)) (k : String) :
    dictGet m k = none ↔ k ∉ dictKeys m := by
  induction m with
  | nil => simp [dictGet, dictKeys]
  | cons p rest ih =>
    obtain ⟨k', v'⟩ := p
    by_cases h : k' = k
    · subst h
      simp [dictGet, dictKeys_cons]
    · have h' : k ≠ k' := fun hh => h hh.symm
      simp [dictGet, dictKeys_cons, h, h', ih]

theorem dictKeys_dictSet_some {α : Type} (m : List (String × α)) (k : String) (v : α)
    (h : (dictGet m k).isSome) : dictKeys (dictSet m k v) = dictKeys m := by
  induction m with
  | nil => simp [dictGet] at h
  | cons p rest ih =>
    obtain ⟨k', v'⟩ := p
    by_cases hk : k' = k
    · simp [dictSet, dictKeys_cons, hk]
    · simp only [dictGet, hk, if_false] at h
      simp [dictSet, dictKeys_cons, hk, ih h]

theorem dictKeys_dictSet_none {α : Type} (m : List (String × α)) (k : String) (v : α)
    (h : dictGet m k = none) : dictKeys (dictSet m k v) = dictKeys m ++ [k] := by
  induction m with
  | nil => simp [dictSet, dictKeys]
  | cons p rest ih =>
    obtain ⟨k', v'⟩ := p
    by_cases hk : k' = k
    · simp [dictGet, hk] at h
    · simp only [dictGet, hk, if_false] at h
      simp [dictSet, dictKeys_cons, hk, ih h]

theorem nodup_dictKeys_dictSet {α : Type} (m : List (String × α)) (k : String) (v : α)
    (h : (dictKeys m).Nodup) : (dictKeys (dictSet m k v)).Nodup := by
  cases hg : dictGet m k with
  | some w => rwa [dictKeys_dictSet_some m k v (by rw [hg]; rfl)]
  | none =>
    rw [dictKeys_dictSet_none m k v hg]
    have hk : k ∉ dictKeys m := (dictGet_eq_none_iff m k).mp hg
    simp [List.nodup_append, h, hk]

theorem mem_dictSet {α : Type} (m : List (String × α)) (k : String) (v : α) (p : String × α)
    (h : p ∈ dictSet m k v) : p ∈ m ∨ p = (k, v) := by
  induction m with
  | nil => simp [dictSet] at h; simp [h]
  | cons q rest ih =>
    obtain ⟨k', v'⟩ := q
    by_cases hk : k' = k
    · simp only [dictSet, hk, if_true] at h
      rcases List.mem_cons.mp h with h | h
      · right; exact h
      · left; simp [h]
    · simp only [dictSet, hk, if_false] at h
      rcases List.mem_cons.mp h with h | h
      · left; simp [h]
      · rcases ih h with h | h
        · left; simp [h]
        · right; exact h

theorem rowDid_rowSet_cod (b : Row) (c : String) :
    rowDid (rowSet b "delivery_codigolimadelivery" c) = rowDid b := by
  rw [rowDid, rowDid, rowGet_rowSet_ne]
  decide

theorem rowFecha10_rowSet_cod (b : Row) (c : String) :
    rowFecha10 (rowSet b "delivery_codigolimadelivery" c) = rowFecha10 b := by
  rw [rowFecha10, rowFecha10, rowGet_rowSet_ne]
  decide

/-- Well-formedness of the `existing_by_id` map when every row of interest
carries a merge key: each entry is keyed by its row's `delivery_id`, dates
match the partition, and keys are unique. -/
def MergedInv (dateStr : String) (m : AMapR) : Prop :=
  (dictKeys m).Nodup ∧
    ∀ p ∈ m, p.1 = rowDid p.2 ∧ rowDid p.2 ≠ "" ∧ rowFecha10 p.2 = dateStr

theorem mergedInv_dictSet (dateStr : String) (m : AMapR) (r : Row)
    (hm : MergedInv dateStr m) (hd : rowDid r ≠ "") (hf : rowFecha10 r = dateStr) :
    MergedInv dateStr (dictSet m (rowDid r) r) := by
  obtain ⟨hnd, hrel⟩ := hm
  refine ⟨nodup_dictKeys_dictSet _ _ _ hnd, ?_⟩
  intro p hp
  rcases mem_dictSet _ _ _ _ hp with h | h
  · exact hrel p h
  · rw [h]
    exact ⟨rfl, hd, hf⟩

theorem mergedInv_buildExistingGo (dateStr : String) (rows : List Row) :
    ∀ (i : Nat) (m : AMapR), MergedInv dateStr m →
    (∀ r ∈ rows, rowFecha10 r = dateStr → rowDid r ≠ "") →
    MergedInv dateStr (buildExistingGo dateStr i m rows) := by
  induction rows with
  | nil =>
    intro i m hm _
    exact hm
  | cons r rest ih =>
    intro i m hm hrows
    simp only [buildExistingGo]
    by_cases hf : rowFecha10 r = dateStr
    · have hd : rowDid r ≠ "" := hrows r (by simp) hf
      simp only [hf, ne_eq, not_true_eq_false, if_false, hd, if_neg hd]
      exact ih (i + 1) _ (mergedInv_dictSet dateStr m r hm hd hf)
        (fun x hx => hrows x (by simp [hx]))
    · simp only [hf, ne_eq, not_false_eq_true, if_true]
      exact ih (i + 1) m hm (fun x hx => hrows x (by simp [hx]))

theorem mergedInv_buildExisting (dateStr : String) (rows : List Row)
    (hrows : ∀ r ∈ rows, rowFecha10 r = dateStr → rowDid r ≠ "") :
    MergedInv dateStr (buildExisting dateStr rows) :=
  mergedInv_buildExistingGo dateStr rows 0 [] ⟨List.nodup_nil, by simp⟩ hrows

theorem mergedInv_mergeRow (dateStr : String) (m : AMapR) (b : Row)
    (hm : MergedInv dateStr m)
    (hb : rowFecha10 b = dateStr → rowDid b ≠ "") :
    MergedInv dateStr (mergeRow dateStr m b) := by
  unfold mergeRow
  by_cases hf : rowFecha10 b = dateStr
  · have hd : rowDid b ≠ "" := hb hf
    simp only [hf, ne_eq, not_true_eq_false, if_false, hd, if_neg hd]
    cases hg : dictGet m (rowDid b) with
    | some ex =>
      simp only []
      by_cases hlk : _looks_like_didi_display_num (pyStrip (rowCod ex)) = true
      · simp only [hlk, if_true]
        have := mergedInv_dictSet dateStr m
          (rowSet b "delivery_codigolimadelivery" (pyStrip (rowCod ex))) hm
          (by rwa [rowDid_rowSet_cod]) (by rwa [rowFecha10_rowSet_cod])
        rwa [rowDid_rowSet_cod] at this
      · simp only [Bool.not_eq_true] at hlk
        simp only [hlk, Bool.false_eq_true, if_false]
        exact mergedInv_dictSet dateStr m b hm hd hf
    | none =>
      simp only [hg]
      exact mergedInv_dictSet dateStr m b hm hd hf
  · simp only [hf, ne_eq, not_false_eq_true, if_true]
    exact hm

theorem mergedInv_foldl_mergeRow (dateStr : String) (data : List Row) (m : AMapR)
    (hm : MergedInv dateStr m)
    (hdata : ∀ b ∈ data, rowFecha10 b = dateStr → rowDid b ≠ "") :
    MergedInv dateStr (data.foldl (mergeRow dateStr) m) := by
  induction data generalizing m with
  | nil => exact hm
  | cons b rest ih =>
    exact ih _ (mergedInv_mergeRow dateStr m b hm (hdata b (by simp)))
      (fun x hx => hdata x (by simp [hx]))

/-- Re-indexing the values of a well-keyed map reproduces the map itself:
`existing_by_id` rebuilt from the rows the merge wrote back is unchanged. -/
theorem buildExistingGo_of_keyed (dateStr : String) (m : AMapR) :
    ∀ (i : Nat) (m0 : AMapR),
    (∀ p ∈ m, p.1 = rowDid p.2 ∧ rowDid p.2 ≠ "" ∧ rowFecha10 p.2 = dateStr) →
    (dictKeys (m0 ++ m)).Nodup →
    buildExistingGo dateStr i m0 (dictVals m) = m0 ++ m := by
  induction m with
  | nil =>
    intro i m0 _ _
    simp [dictVals, buildExistingGo]
  | cons p rest ih =>
    intro i m0 hrel hnd
    obtain ⟨k, r⟩ := p
    obtain ⟨hk, hne, hf⟩ := hrel (k, r) (by simp)
    have hvals : dictVals ((k, r) :: rest) = r :: dictVals rest := rfl
    rw [hvals]
    simp only [buildExistingGo, hf, ne_eq, not_true_eq_false, if_false]
    have hne' : rowDid r ≠ "" := hne
    rw [if_neg hne', ← hk]
    have hkfresh : dictGet m0 k = none := by
      rw [dictGet_eq_none_iff]
      intro hmem
      rw [show dictKeys (m0 ++ (k, r) :: rest) = dictKeys m0 ++ k :: dictKeys rest from by
        simp [dictKeys]] at hnd
      rcases List.nodup_append.mp hnd with ⟨_, _, hdisj⟩
      exact hdisj hmem (by simp)
    rw [dictSet_of_get_none m0 k r hkfresh]
    have := ih (i + 1) (m0 ++ [(k, r)]) (fun q hq => hrel q (by simp [hq]))
      (by rwa [List.append_assoc, List.singleton_append])
    rw [this, List.append_assoc, List.singleton_append]

/-- Rows whose merge key differs from `dd` (and rows filtered out by date)
leave the entry at `dd` untouched. -/
theorem foldl_mergeRow_lookup_untouched (dateStr : String) (l : List Row) (m : AMapR)
    (dd : String)
    (h : ∀ x ∈ l, rowFecha10 x = dateStr → rowDid x ≠ "" ∧ rowDid x ≠ dd) :
    dictGet (l.foldl (mergeRow dateStr) m) dd = dictGet m dd := by
  induction l generalizing m with
  | nil => rfl
  | cons b rest ih =>
    have hstep : dictGet (mergeRow dateStr m b) dd = dictGet m dd := by
      unfold mergeRow
      by_cases hf : rowFecha10 b = dateStr
      · obtain ⟨hd0, hdd⟩ := h b (by simp) hf
        have hdd' : dd ≠ rowDid b := fun hh => hdd hh.symm
        simp only [hf, ne_eq, not_true_eq_false, if_false, hd0, if_neg hd0]
        cases hg : dictGet m (rowDid b) with
        | some ex =>
          simp only []
          by_cases hlk : _looks_like_didi_display_num (pyStrip (rowCod ex)) = true
          · simp only [hlk, if_true]
            exact dictGet_dictSet_ne _ _ _ _ hdd'
          · simp only [Bool.not_eq_true] at hlk
            simp only [hlk, Bool.false_eq_true, if_false]
            exact dictGet_dictSet_ne _ _ _ _ hdd'
        | none =>
          simp only [hg]
          exact dictGet_dictSet_ne _ _ _ _ hdd'
      · simp only [hf, ne_eq, not_false_eq_true, if_true]
    rw [List.foldl_cons, ih _ (fun x hx => h x (by simp [hx])), hstep]

/-- After one merge step for a date-matching row `b` with a merge key, the
entry stored under `rowDid b` is `b` itself, or `b` with the protected
stable code copied over its channel code. -/
theorem mergeRow_lookup_self (dateStr : String) (m : AMapR) (b : Row)
    (hf : rowFecha10 b = dateStr) (hd : rowDid b ≠ "") :
    ∃ s, dictGet (mergeRow dateStr m b) (rowDid b) = some s ∧
      (s = b ∨ ∃ c, s = rowSet b "delivery_codigolimadelivery" c ∧
        _looks_like_didi_display_num c = true ∧ pyStrip c = c) := by
  unfold mergeRow
  simp only [hf, ne_eq, not_true_eq_false, if_false, hd, if_neg hd]
  cases hg : dictGet m (rowDid b) with
  | some ex =>
    simp only []
    by_cases hlk : _looks_like_didi_display_num (pyStrip (rowCod ex)) = true
    · simp only [hlk, if_true]
      refine ⟨_, dictGet_dictSet_self _ _ _, Or.inr ⟨pyStrip (rowCod ex), rfl, ?_, ?_⟩⟩
      · exact hlk
      · exact pyStrip_pyStrip _
    · simp only [Bool.not_eq_true] at hlk
      simp only [hlk, Bool.false_eq_true, if_false]
      exact ⟨b, dictGet_dictSet_self _ _ _, Or.inl rfl⟩
  | none =>
    simp only [hg]
    exact ⟨b, dictGet_dictSet_self _ _ _, Or.inl rfl⟩

theorem looks_like_empty_false : _looks_like_didi_display_num "" = false := rfl

/-- Re-merging a row whose stored entry already reflects it is a no-op. -/
theorem mergeRow_id_of_stored (dateStr : String) (m : AMapR) (b s : Row)
    (hf : rowFecha10 b = dateStr) (hd : rowDid b ≠ "")
    (hcodtrim : pyStrip (rowCod b) = rowCod b)
    (hs : dictGet m (rowDid b) = some s)
    (hform : s = b ∨ ∃ c, s = rowSet b "delivery_codigolimadelivery" c ∧
        _looks_like_didi_display_num c = true ∧ pyStrip c = c) :
    mergeRow dateStr m b = m := by
  unfold mergeRow
  simp only [hf, ne_eq, not_true_eq_false, if_false, hd, if_neg hd, hs]
  rcases hform with rfl | ⟨c, rfl, hlk, hctrim⟩
  · rw [show pyStrip (rowCod s) = rowCod s from hcodtrim]
    by_cases hlk : _looks_like_didi_display_num (rowCod s) = true
    · simp only [hlk, if_true]
      have hne : rowCod s ≠ "" := by
        intro hc
        rw [hc, looks_like_empty_false] at hlk
        exact Bool.false_ne_true hlk
      rw [show rowSet s "delivery_codigolimadelivery" (rowCod s) = s from
        rowSet_rowGet_self s _ hne]
      exact dictSet_eq_self m _ s hs
    · simp only [Bool.not_eq_true] at hlk
      simp only [hlk, Bool.false_eq_true, if_false]
      exact dictSet_eq_self m _ s hs
  · rw [show rowCod (rowSet b "delivery_codigolimadelivery" c) = c from
      rowGet_rowSet_self b _ c]
    rw [hctrim, hlk]
    simp only [if_true]
    exact dictSet_eq_self m _ _ hs

theorem foldl_id_of_steps (f : AMapR → Row → AMapR) (m : AMapR) (l : List Row)
    (h : ∀ b ∈ l, f m b = m) : l.foldl f m = m := by
  induction l with
  | nil => rfl
  | cons b rest ih =>
    rw [List.foldl_cons, h b (by simp)]
    exact ih (fun x hx => h x (by simp [hx]))

theorem mergeRow_date_mismatch (dateStr : String) (m : AMapR) (b : Row)
    (hf : rowFecha10 b ≠ dateStr) : mergeRow dateStr m b = m := by
  unfold mergeRow
  simp [hf]

/-- C3 (amended): the merge is idempotent on well-formed data: if every
stored and incoming date-matching row carries a non-empty (trimmed)
`delivery_id`, the incoming date-matching rows have pairwise distinct
`delivery_id`s, and their `delivery_codigolimadelivery` values carry no
surrounding whitespace, then re-merging the same batch leaves the stored
partition unchanged.  (Rows without a `delivery_id` break idempotence, as
the counterexample shows: each merge appends them again under a fresh
synthetic key.) -/
theorem c3_merge_idempotent (dateStr : String) (existing data : List Row)
    (hex : ∀ r ∈ existing, rowFecha10 r = dateStr → rowDid r ≠ "")
    (hdata : ∀ b ∈ data, rowFecha10 b = dateStr →
        rowDid b ≠ "" ∧ pyStrip (rowCod b) = rowCod b)
    (hnodup : ((data.filter (fun b => rowFecha10 b = dateStr)).map rowDid).Nodup) :
    _save_deliverys_for_local dateStr (_save_deliverys_for_local dateStr existing data) data
      = _save_deliverys_for_local dateStr existing data := by
  unfold _save_deliverys_for_local
  set m1 := data.foldl (mergeRow dateStr) (buildExisting dateStr existing) with hm1
  have hinv : MergedInv dateStr m1 :=
    mergedInv_foldl_mergeRow dateStr data _ (mergedInv_buildExisting dateStr existing hex)
      (fun b hb hf => (hdata b hb hf).1)
  have hrebuild : buildExisting dateStr (dictVals m1) = m1 := by
    have := buildExistingGo_of_keyed dateStr m1 0 [] hinv.2 (by simpa using hinv.1)
    simpa [buildExisting] using this
  rw [hrebuild]
  congr 1
  apply foldl_id_of_steps
  intro b hb
  by_cases hf : rowFecha10 b = dateStr
  · obtain ⟨hd, htrim⟩ := hdata b hb hf
    obtain ⟨pre, post, hsplit⟩ := List.append_of_mem hb
    have hnd' := hnodup
    rw [hsplit, List.filter_append,
      List.filter_cons_of_pos (by simp [hf]), List.map_append, List.map_cons] at hnd'
    have hddB : rowDid b ∉ (post.filter (fun x => rowFecha10 x = dateStr)).map rowDid := by
      rcases List.nodup_append.mp hnd' with ⟨_, hndb, _⟩
      exact (List.nodup_cons.mp hndb).1
    have hpost : ∀ x ∈ post, rowFecha10 x = dateStr → rowDid x ≠ "" ∧ rowDid x ≠ rowDid b := by
      intro x hx hfx
      refine ⟨(hdata x (by rw [hsplit]; simp [hx]) hfx).1, ?_⟩
      intro he
      apply hddB
      rw [← he]
      exact List.mem_map_of_mem rowDid (List.mem_filter.mpr ⟨hx, by simp [hfx]⟩)
    have hm1dd : ∃ s, dictGet m1 (rowDid b) = some s ∧
        (s = b ∨ ∃ c, s = rowSet b "delivery_codigolimadelivery" c ∧
          _looks_like_didi_display_num c = true ∧ pyStrip c = c) := by
      rw [hm1, hsplit, List.foldl_append, List.foldl_cons]
      rw [foldl_mergeRow_lookup_untouched dateStr post _ (rowDid b) hpost]
      exact mergeRow_lookup_self dateStr _ b hf hd
    obtain ⟨s, hs, hform⟩ := hm1dd
    exact mergeRow_id_of_stored dateStr m1 b s hf hd htrim hs hform
  · exact mergeRow_date_mismatch dateStr m1 b hf

/-- C3 witness: a two-row batch with distinct `delivery_id`s merged into a
stored partition; the second application changes nothing. -/
theorem c3_merge_idempotent_witness :
    _save_deliverys_for_local "2026-01-07"
        (_save_deliverys_for_local "2026-01-07"
          [[("delivery_id", "a1"), ("delivery_fecha", "2026-01-07"),
            ("delivery_codigolimadelivery", "357002")]]
          [[("delivery_id", "a1"), ("delivery_fecha", "2026-01-07"),
            ("delivery_codigolimadelivery", "5764659591531007003")],
           [("delivery_id", "a2"), ("delivery_fecha", "2026-01-07"),
            ("delivery_codigolimadelivery", "777001")]])
        [[("delivery_id", "a1"), ("delivery_fecha", "2026-01-07"),
          ("delivery_codigolimadelivery", "5764659591531007003")],
         [("delivery_id", "a2"), ("delivery_fecha", "2026-01-07"),
          ("delivery_codigolimadelivery", "777001")]]
      = _save_deliverys_for_local "2026-01-07"
        [[("delivery_id", "a1"), ("delivery_fecha", "2026-01-07"),
          ("delivery_codigolimadelivery", "357002")]]
        [[("delivery_id", "a1"), ("delivery_fecha", "2026-01-07"),
          ("delivery_codigolimadelivery", "5764659591531007003")],
         [("delivery_id", "a2"), ("delivery_fecha", "2026-01-07"),
          ("delivery_codigolimadelivery", "777001")]] :=
  c3_merge_idempotent "2026-01-07"
    [[("delivery_id", "a1"), ("delivery_fecha", "2026-01-07"),
      ("delivery_codigolimadelivery", "357002")]]
    [[("delivery_id", "a1"), ("delivery_fecha", "2026-01-07"),
      ("delivery_codigolimadelivery", "5764659591531007003")],
     [("delivery_id", "a2"), ("delivery_fecha", "2026-01-07"),
      ("delivery_codigolimadelivery", "777001")]]
    (by decide) (by decide) (by decide)

/-! ## Identifier reconciliation: `_cross_didi_map_and_update_orders`
(`main.py:1822-1893`)

One deliverys file is a list of rows; the photo store under `uploads/` is a
set of `(codeFolder, subdir, relativePath)` files.  The didi map sends a
volatile `codigo_lima` id to a display number such as `"#597026"`. -/

/-- Model of `_sanitize_codigo` (`main.py:1500-1503`): path-safe code. -/
def _sanitize_codigo (codigo : String) : String :=
  let s := pyStrip codigo
  let t : String := ⟨s.data.map (fun c =>
    if c.isAlphanum || c = '.' || c = '_' || c = '-' then c else '_')⟩
  if t = "" then "sin_codigo" else t

/-- The photo store: a finite set of files `(code folder, subdir, rel path)`. -/
abbrev AssetStore := Finset (String × String × String)

/-- The three subfolders migrated by the cross step (`main.py:1857`). -/
def uploadSubdirs : List String := ["entrega", "apelacion", "respuestas"]

/-- Copy-merge `uploads/{src}/{sub}` into `uploads/{dst}/{sub}` for the three
subfolders, never overwriting an existing destination file and never
deleting the source (`main.py:1852-1871`). -/
def copyAssets (assets : AssetStore) (src dst : String) : AssetStore :=
  assets ∪ (assets.filter (fun p => p.1 = src ∧ p.2.1 ∈ uploadSubdirs)).image
    (fun p => (dst, p.2.1, p.2.2))

/-- Per-row body of the cross loop (`main.py:1843-1874`): if the row's
(stripped) channel code is a key of the didi map with a usable display
number, rewrite the code to the normalized display number and report the
asset-folder migration `(sanitized old, sanitized new)`; otherwise leave
the row alone. -/
def crossUpdate (didiMap : List (String × String)) (row : Row) :
    Row × Option (String × String) :=
  let cod := pyStrip (rowCod row)
  match dictGet didiMap cod with
  | none => (row, none)
  | some display_num =>
    if display_num = "" then (row, none)
    else
      let d := _normalize_didi_display_num (pyStrip display_num)
      if d = "" then (row, none)
      else (rowSet row "delivery_codigolimadelivery" d,
            some (_sanitize_codigo cod, _sanitize_codigo d))

/-- Model of `_cross_didi_map_and_update_orders` (`main.py:1822-1893`) on one
deliverys file: the rewritten rows, the photo store after the copy-merges,
and how many rows were rewritten (the loop's `changed` granularity). -/
def _cross_didi_map_and_update_orders (didiMap : List (String × String))
    (rows : List Row) (assets : AssetStore) : List Row × AssetStore × Nat :=
  (rows.map (fun r => (crossUpdate didiMap r).1),
   rows.foldl (fun a r =>
      match (crossUpdate didiMap r).2 with
      | none => a
      | some (src, dst) => copyAssets a src dst) assets,
   rows.countP (fun r => ((crossUpdate didiMap r).2).isSome))

/-- C4 counterexample: with the rename map `{1111 -> 2222, 2222 -> 3333}` a
row holding code `1111` is rewritten to `2222` by the first application and
to `3333` by the second: the second application changes state and performs
one further replacement, not zero. -/
theorem c4_counterexample :
    (_cross_didi_map_and_update_orders [("1111", "2222"), ("2222", "3333")]
        [[("delivery_codigolimadelivery", "1111")]] ∅).1
      = [[("delivery_codigolimadelivery", "2222")]]
    ∧ (_cross_didi_map_and_update_orders [("1111", "2222"), ("2222", "3333")]
        [[("delivery_codigolimadelivery", "2222")]] ∅).1
      = [[("delivery_codigolimadelivery", "3333")]]
    ∧ (_cross_didi_map_and_update_orders [("1111", "2222"), ("2222", "3333")]
        [[("delivery_codigolimadelivery", "2222")]] ∅).2.2 = 1 := by
  refine ⟨by decide, by decide, by decide⟩

theorem dictGet_mem {α : Type} (m : List (String × α)) (k : String) (v : α)
    (h : dictGet m k = some v) : (k, v) ∈ m := by
  induction m with
  | nil => simp [dictGet] at h
  | cons p rest ih =>
    obtain ⟨k', v'⟩ := p
    by_cases hk : k' = k
    · subst hk
      simp [dictGet] at h
      simp [h]
    · simp only [dictGet, hk, if_false] at h
      simp [ih h]

/-- A row already rewritten by the cross step is left alone by a second
pass, provided no (usable) mapped display number is itself a key of the
rename map. -/
theorem crossUpdate_crossUpdate (didiMap : List (String × String)) (r : Row)
    (hmap : ∀ p ∈ didiMap, p.2 ≠ "" →
        _normalize_didi_display_num (pyStrip p.2) ≠ "" →
        dictGet didiMap (pyStrip (_normalize_didi_display_num (pyStrip p.2))) = none) :
    crossUpdate didiMap ((crossUpdate didiMap r).1) = ((crossUpdate didiMap r).1, none) := by
  unfold crossUpdate
  cases hg : dictGet didiMap (pyStrip (rowCod r)) with
  | none => simp [hg]
  | some dn =>
    by_cases hdn : dn = ""
    · simp [hg, hdn]
    · by_cases hd : _normalize_didi_display_num (pyStrip dn) = ""
      · simp [hg, hdn, hd]
      · simp only [hg, hdn, if_false, hd, if_neg hdn, if_neg hd]
        have hcod' : rowCod (rowSet r "delivery_codigolimadelivery"
            (_normalize_didi_display_num (pyStrip dn)))
            = _normalize_didi_display_num (pyStrip dn) :=
          rowGet_rowSet_self r _ _
        rw [hcod']
        have hnone := hmap (pyStrip (rowCod r), dn) (dictGet_mem _ _ _ hg) hdn hd
        rw [hnone]

theorem foldl_fix_of_steps {α β : Type} (f : α → β → α) (a : α) (l : List β)
    (h : ∀ b ∈ l, ∀ x, f x b = x) : l.foldl f a = a := by
  induction l generalizing a with
  | nil => rfl
  | cons b rest ih =>
    rw [List.foldl_cons, h b (by simp)]
    exact ih a (fun x hx => h x (by simp [hx]))

/-- C4 (amended): applying the same rename map twice leaves the rewritten
rows and the migrated photo store unchanged and performs zero further
replacements, provided no (usable) mapped display number is itself a key of
the rename map — i.e. the map does not chain.  (For a chaining map the
second application rewrites again, as the counterexample shows.  The source
returns no `replacedCount`; the count here is the number of rows the loop
rewrites, its `changed` granularity.) -/
theorem c4_rename_idempotent (didiMap : List (String × String)) (rows : List Row)
    (assets : AssetStore)
    (hmap : ∀ p ∈ didiMap, p.2 ≠ "" →
        _normalize_didi_display_num (pyStrip p.2) ≠ "" →
        dictGet didiMap (pyStrip (_normalize_didi_display_num (pyStrip p.2))) = none) :
    _cross_didi_map_and_update_orders didiMap
        (_cross_didi_map_and_update_orders didiMap rows assets).1
        (_cross_didi_map_and_update_orders didiMap rows assets).2.1
      = ((_cross_didi_map_and_update_orders didiMap rows assets).1,
         (_cross_didi_map_and_update_orders didiMap rows assets).2.1, 0) := by
  have hfix : ∀ r' ∈ (_cross_didi_map_and_update_orders didiMap rows assets).1,
      crossUpdate didiMap r' = (r', none) := by
    intro r' hr'
    simp only [_cross_didi_map_and_update_orders, List.mem_map] at hr'
    obtain ⟨r, _, rfl⟩ := hr'
    exact crossUpdate_crossUpdate didiMap r hmap
  set rows1 := (_cross_didi_map_and_update_orders didiMap rows assets).1 with hrows1
  set assets1 := (_cross_didi_map_and_update_orders didiMap rows assets).2.1 with hassets1
  show (rows1.map (fun r => (crossUpdate didiMap r).1),
      rows1.foldl (fun a r =>
        match (crossUpdate didiMap r).2 with
        | none => a
        | some (src, dst) => copyAssets a src dst) assets1,
      rows1.countP (fun r => ((crossUpdate didiMap r).2).isSome))
    = (rows1, assets1, 0)
  have h1 : rows1.map (fun r => (crossUpdate didiMap r).1) = rows1 := by
    have : rows1.map (fun r => (crossUpdate didiMap r).1) = rows1.map id := by
      apply List.map_congr_left
      intro r hr
      rw [hfix r hr]
      rfl
    rw [this, List.map_id]
  have h2 : rows1.foldl (fun a r =>
      match (crossUpdate didiMap r).2 with
      | none => a
      | some (src, dst) => copyAssets a src dst) assets1 = assets1 := by
    apply foldl_fix_of_steps
    intro r hr x
    rw [hfix r hr]
  have h3 : rows1.countP (fun r => ((crossUpdate didiMap r).2).isSome) = 0 := by
    rw [List.countP_eq_zero]
    intro r hr
    rw [hfix r hr]
    simp
  rw [h1, h2, h3]

/-- C4 witness: the map `{5764659591531007003 -> #597026}` applied to a row
holding the volatile id, with one photo stored under the volatile id's
folder; the second application changes nothing and counts zero rewrites. -/
theorem c4_rename_idempotent_witness :
    _cross_didi_map_and_update_orders [("5764659591531007003", "#597026")]
        (_cross_didi_map_and_update_orders [("5764659591531007003", "#597026")]
          [[("delivery_codigolimadelivery", "5764659591531007003")]]
          {("5764659591531007003", "entrega", "foto1.jpg")}).1
        (_cross_didi_map_and_update_orders [("5764659591531007003", "#597026")]
          [[("delivery_codigolimadelivery", "5764659591531007003")]]
          {("5764659591531007003", "entrega", "foto1.jpg")}).2.1
      = ((_cross_didi_map_and_update_orders [("5764659591531007003", "#597026")]
          [[("delivery_codigolimadelivery", "5764659591531007003")]]
          {("5764659591531007003", "entrega", "foto1.jpg")}).1,
         (_cross_didi_map_and_update_orders [("5764659591531007003", "#597026")]
          [[("delivery_codigolimadelivery", "5764659591531007003")]]
          {("5764659591531007003", "entrega", "foto1.jpg")}).2.1, 0) :=
  c4_rename_idempotent [("5764659591531007003", "#597026")]
    [[("delivery_codigolimadelivery", "5764659591531007003")]]
    {("5764659591531007003", "entrega", "foto1.jpg")}
    (by decide)

/-! ## Appeals ledger (`main.py:2100-3010`)

One item of `apelaciones.json`.  Money is exact `ℚ`; optional/legacy JSON
keys are `Option` fields (`none` = key absent or `null`); ISO timestamp
strings (`fecha_marcado`, `fecha_apelado`) are epoch seconds, `none`
standing for a missing or unparseable string. -/

/-- Python `max(a, b)` on money amounts (kernel-computable, unlike the
lattice `max` of `ℚ`). -/
def pyMax (a b : ℚ) : ℚ := if a ≤ b then b else a

/-- A refund event `{monto, fecha}` of the `reembolsos` list. -/
structure Reembolso where
  monto : ℚ
  fecha : String
deriving DecidableEq

/-- A site-debit event of the `descuentos` list.  `ejecutado` is `none` for
legacy entries lacking the key; readers apply `d.get("ejecutado", True)`. -/
structure Descuento where
  id : String
  monto : ℚ
  quincena : String
  fecha : String
  ejecutado : Option Bool
deriving DecidableEq

/-- An appeals-ledger record. -/
structure Apelacion where
  codigo : String
  canal : String := ""
  «local» : String := ""
  fecha : String := ""
  delivery_id : String := ""
  monto_descontado : ℚ := 0
  monto_devuelto : Option ℚ := none
  fecha_marcado : Option Int := none
  fecha_apelado : Option Int := none
  fecha_estimada_devolucion : Option String := none
  sede_decidio_no_apelar : Bool := false
  reembolsos : Option (List Reembolso) := none
  reembolsado : Bool := false
  monto_reembolsado : Option ℚ := none
  fecha_reembolso : String := ""
  descuentos : Option (List Descuento) := none
  descuento_confirmado : Bool := false
  fecha_descuento_confirmado : String := ""
  monto_empresa_asume : ℚ := 0
  empresa_asume : Bool := false
  fecha_empresa_asume : String := ""
deriving DecidableEq

/-- Model of `_total_reembolsado` (`main.py:2165-2172`): sum of incremental refunds,
with the legacy single-refund fallback. -/
def _total_reembolsado (item : Apelacion) : ℚ :=
  match item.reembolsos with
  | some rs => (rs.map (fun r => r.monto)).sum
  | none =>
    if item.reembolsado && item.monto_reembolsado.isSome then
      item.monto_reembolsado.getD 0
    else 0

/-- Model of `_calcular_perdida_antes_descuento` (`main.py:2204-2208`). -/
def _calcular_perdida_antes_descuento (item : Apelacion) : ℚ :=
  pyMax 0 (item.monto_descontado - _total_reembolsado item)

/-- Model of `_total_descuentos_sede` (`main.py:2175-2186`): executed debits only
(`d.get("ejecutado", True)`), with the legacy fallback. -/
def _total_descuentos_sede (item : Apelacion) : ℚ :=
  match item.descuentos with
  | some ds => ((ds.filter (fun d => d.ejecutado.getD true)).map (fun d => d.monto)).sum
  | none =>
    if item.descuento_confirmado && decide (0 < _calcular_perdida_antes_descuento item) then
      _calcular_perdida_antes_descuento item
    else 0

/-- Model of `_total_descuentos_programados` (`main.py:2189-2196`): all debits,
executed or pending. -/
def _total_descuentos_programados (item : Apelacion) : ℚ :=
  match item.descuentos with
  | some ds => (ds.map (fun d => d.monto)).sum
  | none =>
    if item.descuento_confirmado && decide (0 < _calcular_perdida_antes_descuento item) then
      _calcular_perdida_antes_descuento item
    else 0

/-- Model of `_monto_empresa_asume` (`main.py:2199-2201`). -/
def _monto_empresa_asume (item : Apelacion) : ℚ := item.monto_empresa_asume

/-- Model of `_calcular_perdida` (`main.py:2612-2614`). -/
def _calcular_perdida (item : Apelacion) : ℚ := _calcular_perdida_antes_descuento item

/-- Model of `HTTPException`s raised by the endpoints before the state is written. -/
inductive ApiError where
  | badRequest (detail : String)
  | notFound (detail : String)
deriving DecidableEq

/-- Model of `_get_apelacion_by_codigo` (`main.py:2156-2162`). -/
def _get_apelacion_by_codigo (items : List Apelacion) (codigo : String) : Option Apelacion :=
  items.find? (fun item => pyStrip item.codigo = pyStrip codigo)

/-- The endpoints' shared `for item in items: if codigo matches: ...; break`
read-modify-write loop. -/
def updateFirstApelacion (items : List Apelacion) (cod : String)
    (f : Apelacion → Apelacion) : List Apelacion :=
  match items with
  | [] => []
  | it :: rest =>
    if pyStrip it.codigo = cod then f it :: rest
    else it :: updateFirstApelacion rest cod f

/-- Python `round(x, 2)` (modelled as half-up rounding; Python rounds
half-to-even, which differs only at exact half-cents). -/
def pyRound2 (q : ℚ) : ℚ := (round (q * 100) : ℤ) / 100

/-- Model of `api_marcar_apelacion` (`main.py:2361-2422`): mark an order for appeal
(create or re-mark).  `now` is the current timestamp used for
`fecha_marcado`.  Notification side effects are out of scope. -/
def api_marcar_apelacion (now : Int) (items : List Apelacion)
    (codigo canal delivery_id : String) (monto_descontado : ℚ)
    (localName fecha : String) : Except ApiError (List Apelacion) :=
  let cod := pyStrip codigo
  if cod = "" then .error (.badRequest "codigo requerido")
  else if (_get_apelacion_by_codigo items cod).isSome then
    .ok (updateFirstApelacion items cod (fun item =>
      { item with
        canal := pyStrip canal
        delivery_id := pyStrip delivery_id
        monto_descontado := monto_descontado
        fecha_marcado := some now
        «local» := pyStrip localName
        fecha := pyStrip fecha }))
  else
    .ok (items ++ [{
      codigo := cod
      canal := pyStrip canal
      delivery_id := pyStrip delivery_id
      monto_descontado := monto_descontado
      monto_devuelto := none
      fecha_marcado := some now
      fecha_apelado := none
      «local» := pyStrip localName
      fecha := pyStrip fecha }])

/-- Model of `api_apelar` (`main.py:2455-2501`): record the channel's appeal response
(`recordAppealResponse`).  Photo upload and notification are out of scope. -/
def api_apelar (now : Int) (items : List Apelacion) (codigo : String)
    (monto_devuelto : ℚ) (fecha_estimada_devolucion : String) :
    Except ApiError (List Apelacion) :=
  let cod := pyStrip codigo
  if cod = "" then .error (.badRequest "codigo requerido")
  else
    match _get_apelacion_by_codigo items cod with
    | none => .error (.notFound "Orden no marcada para apelacion")
    | some ap =>
      if ap.monto_devuelto.isSome then .error (.badRequest "Esta orden ya fue apelada")
      else
        let fecha_est := pyTake 10 (pyStrip fecha_estimada_devolucion)
        .ok (updateFirstApelacion items cod (fun item =>
          { item with
            monto_devuelto := some monto_devuelto
            fecha_estimada_devolucion := if fecha_est = "" then none else some fecha_est
            fecha_apelado := some now }))

/-- Model of `api_no_apelar` (`main.py:2508-2525`): the site declines to appeal
(`declineAppeal`). -/
def api_no_apelar (items : List Apelacion) (codigo : String) :
    Except ApiError (List Apelacion) :=
  let cod := pyStrip codigo
  if cod = "" then .error (.badRequest "codigo requerido")
  else
    match _get_apelacion_by_codigo items cod with
    | none => .error (.notFound "Orden no encontrada en apelaciones")
    | some ap =>
      if ap.monto_devuelto.isSome then .error (.badRequest "Esta orden ya fue apelada")
      else .ok (updateFirstApelacion items cod (fun item =>
        { item with sede_decidio_no_apelar := true }))

/-- Model of `api_reembolsar` (`main.py:2561-2610`): register an incremental refund
(`registerRefund`); `mismo_valor = true` is the "fill remaining" mode.
`today` is the current date string used when no date is supplied. -/
def api_reembolsar (items : List Apelacion) (codigo : String) (mismo_valor : Bool)
    (monto_reembolsado : Option ℚ) (fecha_reembolso : String) (today : String) :
    Except ApiError (List Apelacion) :=
  let cod := pyStrip codigo
  if cod = "" then .error (.badRequest "codigo requerido")
  else
    match _get_apelacion_by_codigo items cod with
    | none => .error (.notFound "Orden no encontrada en apelaciones")
    | some ap =>
      if ap.monto_devuelto.isNone then .error (.badRequest "La orden no tiene monto_devuelto")
      else
        let monto_devuelto := ap.monto_devuelto.getD 0
        let monto := if mismo_valor then pyMax 0 (monto_devuelto - _total_reembolsado ap)
          else monto_reembolsado.getD 0
        if monto ≤ 0 then .error (.badRequest "El monto debe ser mayor a 0")
        else
          let fecha := if pyTake 10 (pyStrip fecha_reembolso) = "" then today
            else pyTake 10 (pyStrip fecha_reembolso)
          .ok (updateFirstApelacion items cod (fun item =>
            let reembolsos :=
              match item.reembolsos with
              | some rs => rs
              | none =>
                if item.reembolsado && item.monto_reembolsado.isSome then
                  [{ monto := item.monto_reembolsado.getD 0,
                     fecha := pyTake 10 item.fecha_reembolso }]
                else []
            let rs' := reembolsos ++ [{ monto := monto, fecha := fecha }]
            let total := (rs'.map (fun r => r.monto)).sum
            let md := item.monto_devuelto.getD 0
            { item with
              reembolsos := some rs'
              reembolsado := decide (total ≥ md)
              fecha_reembolso := fecha
              monto_reembolsado := some total }))

/-- Model of `api_programar_descuento` (`main.py:2850-2893`): schedule a future site
debit (`scheduleDebit`), appended with `ejecutado = False`.  `freshId` is
the `uuid4` the source generates; `nowQuincena`/`nowFecha` are the defaults
derived from the current date. -/
def api_programar_descuento (items : List Apelacion) (codigo : String) (monto : ℚ)
    (quincena fecha freshId nowQuincena nowFecha : String) :
    Except ApiError (List Apelacion) :=
  let cod := pyStrip codigo
  if cod = "" then .error (.badRequest "codigo requerido")
  else
    match _get_apelacion_by_codigo items cod with
    | none => .error (.notFound "Orden no encontrada en apelaciones")
    | some ap =>
      let perdida := _calcular_perdida ap
      if perdida ≤ 0 then .error (.badRequest "Esta orden no tiene perdida a descontar")
      else if monto ≤ 0 then .error (.badRequest "Indica el monto a programar")
      else
        let q := if pyStrip quincena = "" then nowQuincena else pyStrip quincena
        let f := if pyStrip fecha = "" then nowFecha else pyStrip fecha
        .ok (updateFirstApelacion items cod (fun item =>
          let ds := item.descuentos.getD []
          { item with
            descuentos := some (ds ++ [{
              id := freshId
              monto := monto
              quincena := q
              fecha := f
              ejecutado := some false }]) }))

/-- Model of `api_asumir_empresa` (`main.py:2947-2981`): the company absorbs the loss
or part of it (`absorbLoss`); `monto_body ≤ 0` means "absorb the remainder".
`today` is the current date string. -/
def api_asumir_empresa (items : List Apelacion) (codigo : String) (monto_body : ℚ)
    (today : String) : Except ApiError (List Apelacion) :=
  let cod := pyStrip codigo
  if cod = "" then .error (.badRequest "codigo requerido")
  else
    match _get_apelacion_by_codigo items cod with
    | none => .error (.notFound "Orden no encontrada en apelaciones")
    | some ap =>
      let perdida := _calcular_perdida ap
      if perdida ≤ 0 then .error (.badRequest "Esta orden no tiene perdida")
      else
        let total_prog := _total_descuentos_programados ap
        let monto_ya := _monto_empresa_asume ap
        let restante := pyMax 0 (perdida - total_prog - monto_ya)
        let monto := if monto_body ≤ 0 then restante else monto_body
        if monto ≤ 0 then .error (.badRequest "No hay monto restante por asumir")
        else
          .ok (updateFirstApelacion items cod (fun item =>
            let nuevo_total := pyRound2 (monto_ya + monto)
            let total_eje := _total_descuentos_sede item
            let item' := { item with
              monto_empresa_asume := nuevo_total
              empresa_asume := true
              fecha_empresa_asume := today }
            if total_eje + nuevo_total ≥ perdida then
              { item' with descuento_confirmado := true }
            else item'))

/-- Model of `_apelacion_plazo_vencido` (`main.py:2639-2659`): the appeal window has
expired — at least `dias_para_apelar` whole days have elapsed since
`fecha_marcado` — and the site neither responded nor declined.
`(now - marcado).days` is floor division of the elapsed seconds by 86400;
a missing or unparseable `fecha_marcado` yields `false`. -/
def _apelacion_plazo_vencido (now : Int) (item : Apelacion) (dias_para_apelar : Int) : Bool :=
  if item.monto_devuelto.isSome then false
  else if item.sede_decidio_no_apelar then false
  else
    match item.fecha_marcado with
    | none => false
    | some marcado => decide (Int.fdiv (now - marcado) 86400 ≥ dias_para_apelar)

/-- Model of `api_apelaciones_descuentos` (`main.py:2715-2786`): the debit-collection
listing, as the sublist of ledger items it surfaces (the endpoint then
decorates and sorts them by `fecha`, which does not affect membership).
Default query parameters are `localF = fecha_desde = fecha_hasta = ""`,
`solo_pendientes = true`, the other flags `false`; `dias_para_apelar` is the
configured grace period (default 5). -/
def api_apelaciones_descuentos (now : Int) (dias_para_apelar : Int)
    (items : List Apelacion) (localF fecha_desde fecha_hasta : String)
    (solo_pendientes solo_confirmados solo_programados solo_empresa_asume : Bool) :
    List Apelacion :=
  items.filter (fun item =>
    let perdida := _calcular_perdida item
    if perdida ≤ 0 then false
    else if localF ≠ "" ∧ pyStrip item.«local» ≠ pyStrip localF then false
    else if fecha_desde ≠ "" ∧ item.fecha < fecha_desde then false
    else if fecha_hasta ≠ "" ∧ fecha_hasta < item.fecha then false
    else
      let vencida := _apelacion_plazo_vencido now item dias_para_apelar
      let puede_descontar := item.sede_decidio_no_apelar
        || item.monto_devuelto.isSome || vencida
      if !puede_descontar then false
      else
        let total_eje := _total_descuentos_sede item
        let total_prog := _total_descuentos_programados item
        let monto_empresa := _monto_empresa_asume item
        let total_cubierto_prog := total_prog + monto_empresa
        let total_cubierto_eje := total_eje + monto_empresa
        let descuentos_list := item.descuentos.getD []
        let tiene_pendientes_ejecutar := descuentos_list.any (fun d => !(d.ejecutado.getD true))
        if solo_empresa_asume then decide (0 < monto_empresa)
        else if solo_confirmados then decide (perdida ≤ total_cubierto_eje)
        else if solo_programados then tiene_pendientes_ejecutar
        else if solo_pendientes ∧ perdida ≤ total_cubierto_prog then false
        else true)

/-- C5 (ledger loss arithmetic): the outstanding loss is
`max(0, amountWithheld - sum(refundEvents))`; and in the spec's scenario —
mark with `monto_descontado = 50000`, record an appeal response of
`50000`, register a refund of `30000` — the loss is `20000` and the record
is not yet refunded; after a further "fill remaining" refund
(`mismo_valor = true`) the loss is `0` and the `reembolsado` flag is set. -/
theorem c5_ledger_loss_arithmetic :
    (∀ item : Apelacion,
      _calcular_perdida_antes_descuento item
        = pyMax 0 (item.monto_descontado - _total_reembolsado item))
    ∧ ((api_marcar_apelacion 0 [] "A9" "" "" 50000 "" "").bind (fun i1 =>
        (api_apelar 100 i1 "A9" 50000 "").bind (fun i2 =>
          api_reembolsar i2 "A9" false (some 30000) "" "2026-01-10"))).toOption.map
        (fun items => items.map (fun ap =>
          (_calcular_perdida_antes_descuento ap, ap.reembolsado)))
      = some [(20000, false)]
    ∧ ((api_marcar_apelacion 0 [] "A9" "" "" 50000 "" "").bind (fun i1 =>
        (api_apelar 100 i1 "A9" 50000 "").bind (fun i2 =>
          (api_reembolsar i2 "A9" false (some 30000) "" "2026-01-10").bind (fun i3 =>
            api_reembolsar i3 "A9" true none "" "2026-01-11")))).toOption.map
        (fun items => items.map (fun ap =>
          (_calcular_perdida_antes_descuento ap, ap.reembolsado)))
      = some [(0, true)] :=
  ⟨fun _ => rfl, by with_unfolding_all rfl, by with_unfolding_all rfl⟩

/-- C6 counterexample: on an appeal with outstanding loss 100,
`programar-descuento` accepts a debit of 150 (scheduled+absorbed total 150 >
loss 100), and `asumir-empresa` accepts an explicit absorption of 500. -/
theorem c6_counterexample :
    (api_programar_descuento [{ codigo := "B1", monto_descontado := 100 }]
        "B1" 150 "" "" "uuid-1" "2026-01-1" "2026-01-10").toOption.map
      (fun items => items.map (fun ap =>
        (_calcular_perdida ap, _total_descuentos_programados ap + _monto_empresa_asume ap)))
      = some [(100, 150)]
    ∧ (api_asumir_empresa [{ codigo := "B2", monto_descontado := 100 }]
        "B2" 500 "2026-01-10").toOption.map
      (fun items => items.map (fun ap =>
        (_calcular_perdida ap, _monto_empresa_asume ap)))
      = some [(100, 500)] :=
  ⟨by with_unfolding_all rfl, by with_unfolding_all rfl⟩

theorem get_updateFirstApelacion (items : List Apelacion) (cod : String)
    (f : Apelacion → Apelacion) (ap : Apelacion)
    (hcod : pyStrip cod = cod)
    (hf : ∀ x, (f x).codigo = x.codigo)
    (hget : _get_apelacion_by_codigo items cod = some ap) :
    _get_apelacion_by_codigo (updateFirstApelacion items cod f) cod = some (f ap) := by
  induction items with
  | nil => simp [_get_apelacion_by_codigo] at hget
  | cons it rest ih =>
    by_cases hm : pyStrip it.codigo = pyStrip cod
    · have hm' : pyStrip it.codigo = cod := by rw [hm, hcod]
      have hap : it = ap := by
        unfold _get_apelacion_by_codigo at hget
        rw [List.find?_cons_of_pos _ (by simpa using hm)] at hget
        exact Option.some.inj hget
      subst hap
      simp only [updateFirstApelacion, hm', if_true]
      unfold _get_apelacion_by_codigo
      rw [List.find?_cons_of_pos _ (by simp [hf, hm])]
    · have hm' : ¬ (pyStrip it.codigo = cod) := by rwa [hcod] at hm
      have hget' : _get_apelacion_by_codigo rest cod = some ap := by
        unfold _get_apelacion_by_codigo at hget
        rwa [List.find?_cons_of_neg _ (by simpa using hm)] at hget
      simp only [updateFirstApelacion, hm', if_false]
      unfold _get_apelacion_by_codigo
      rw [List.find?_cons_of_neg _ (by simpa using hm)]
      exact ih hget'

theorem pyMax_zero_nonpos {d : ℚ} (h : d ≤ 0) : pyMax 0 d ≤ 0 := by
  unfold pyMax
  by_cases h0 : (0 : ℚ) ≤ d
  · simpa [h0] using h
  · simp [h0]

theorem pyMax_zero_pos {d : ℚ} (h : 0 < d) : pyMax 0 d = d := by
  unfold pyMax
  simp [le_of_lt h]

/-- C6 (amended): neither `programar-descuento` nor an explicit-amount
`asumir-empresa` caps against the outstanding loss — any positive amount is
appended/added, so the scheduled-plus-absorbed total can exceed the loss.
The only capped path is `asumir-empresa` with `monto ≤ 0` ("absorb the
remainder"), which absorbs exactly
`max(0, perdida - totalProgramado - montoYaAsumido)` and fails with 400 when
that remainder is not positive. -/
theorem c6_debit_absorption_no_cap (items : List Apelacion) (codigo today : String)
    (ap : Apelacion)
    (hcod : pyStrip codigo ≠ "")
    (hget : _get_apelacion_by_codigo items (pyStrip codigo) = some ap)
    (hperdida : 0 < _calcular_perdida ap) :
    (∀ monto : ℚ, 0 < monto → ∀ quincena fecha freshId nowQ nowF : String,
      ∃ items', api_programar_descuento items codigo monto quincena fecha freshId nowQ nowF
          = .ok items'
        ∧ ∃ ap', _get_apelacion_by_codigo items' (pyStrip codigo) = some ap'
          ∧ _total_descuentos_programados ap'
              = ((ap.descuentos.getD []).map (fun d => d.monto)).sum + monto)
    ∧ (∀ monto_body : ℚ, monto_body ≤ 0 →
        ((_calcular_perdida ap - _total_descuentos_programados ap - _monto_empresa_asume ap ≤ 0 →
          api_asumir_empresa items codigo monto_body today
            = .error (.badRequest "No hay monto restante por asumir"))
        ∧ (0 < _calcular_perdida ap - _total_descuentos_programados ap - _monto_empresa_asume ap →
          ∃ items', api_asumir_empresa items codigo monto_body today = .ok items'
            ∧ ∃ ap', _get_apelacion_by_codigo items' (pyStrip codigo) = some ap'
              ∧ _monto_empresa_asume ap'
                  = pyRound2 (_monto_empresa_asume ap
                      + (_calcular_perdida ap - _total_descuentos_programados ap
                          - _monto_empresa_asume ap)))))
    ∧ (∀ monto_body : ℚ, 0 < monto_body →
        ∃ items', api_asumir_empresa items codigo monto_body today = .ok items'
          ∧ ∃ ap', _get_apelacion_by_codigo items' (pyStrip codigo) = some ap'
            ∧ _monto_empresa_asume ap' = pyRound2 (_monto_empresa_asume ap + monto_body)) := by
  have hcod' : pyStrip (pyStrip codigo) = pyStrip codigo := pyStrip_pyStrip codigo
  refine ⟨?_, ?_, ?_⟩
  · intro monto hmonto quincena fecha freshId nowQ nowF
    unfold api_programar_descuento
    simp only [if_neg hcod, hget]
    rw [if_neg (not_le.mpr hperdida), if_neg (not_le.mpr hmonto)]
    refine ⟨_, rfl, ?_⟩
    refine ⟨_, get_updateFirstApelacion items (pyStrip codigo) _ ap hcod'
      (fun x => rfl) hget, ?_⟩
    simp only [_total_descuentos_programados, Option.getD_some]
    rw [List.map_append, List.sum_append]
    simp
  · intro monto_body hmb
    unfold api_asumir_empresa
    simp only [if_neg hcod, hget]
    rw [if_neg (not_le.mpr hperdida)]
    simp only [if_pos hmb]
    constructor
    · intro hdiff
      rw [if_pos (pyMax_zero_nonpos hdiff)]
    · intro hdiff
      rw [pyMax_zero_pos hdiff]
      rw [if_neg (not_le.mpr hdiff)]
      refine ⟨_, rfl, ?_⟩
      refine ⟨_, get_updateFirstApelacion items (pyStrip codigo) _ ap hcod'
        (fun x => by split <;> rfl) hget, ?_⟩
      split <;> rfl
  · intro monto_body hmb
    unfold api_asumir_empresa
    simp only [if_neg hcod, hget]
    rw [if_neg (not_le.mpr hperdida)]
    rw [if_neg (not_le.mpr hmb), if_neg (not_le.mpr hmb)]
    refine ⟨_, rfl, ?_⟩
    refine ⟨_, get_updateFirstApelacion items (pyStrip codigo) _ ap hcod'
      (fun x => by split <;> rfl) hget, ?_⟩
    split <;> rfl

/-- C6 witness: on an appeal with outstanding loss 100 and nothing yet
scheduled, a debit of 150 is accepted and brings the scheduled total to
150, exceeding the loss. -/
theorem c6_debit_absorption_no_cap_witness :
    ∃ items', api_programar_descuento [{ codigo := "B3", monto_descontado := 100 }]
        "B3" 150 "" "" "u1" "2026-01-1" "2026-01-10" = .ok items'
      ∧ ∃ ap', _get_apelacion_by_codigo items' (pyStrip "B3") = some ap'
        ∧ _total_descuentos_programados ap'
            = ((({ codigo := "B3", monto_descontado := 100 } : Apelacion).descuentos.getD []).map
                (fun d => d.monto)).sum + 150 :=
  (c6_debit_absorption_no_cap [{ codigo := "B3", monto_descontado := 100 }] "B3" "2026-01-10"
    { codigo := "B3", monto_descontado := 100 }
    (by decide) (by with_unfolding_all rfl) (of_decide_eq_true (by with_unfolding_all rfl))).1
    150 (of_decide_eq_true (by with_unfolding_all rfl)) "" "" "u1" "2026-01-1" "2026-01-10"

/-- C7 counterexample: a record whose site declined to appeal — so the
eligibility gate holds — but whose withheld amount is 0 is not listed: the
listing also requires a positive outstanding loss, so the "if and only if"
of the claim fails. -/
theorem c7_counterexample :
    api_apelaciones_descuentos 0 5
        [{ codigo := "C1", monto_descontado := 0, sede_decidio_no_apelar := true }]
        "" "" "" true false false false = []
    ∧ (({ codigo := "C1", monto_descontado := 0, sede_decidio_no_apelar := true : Apelacion }).sede_decidio_no_apelar
        || (({ codigo := "C1", monto_descontado := 0, sede_decidio_no_apelar := true : Apelacion }).monto_devuelto).isSome
        || _apelacion_plazo_vencido 0
            { codigo := "C1", monto_descontado := 0, sede_decidio_no_apelar := true } 5)
      = true :=
  ⟨by with_unfolding_all rfl, by rfl⟩

/-- C7 (amended): under the default query parameters, the debit-collection
listing surfaces a record exactly when it has a positive outstanding loss,
the eligibility gate holds (site declined, or appeal response recorded, or
at least `dias_para_apelar` whole days elapsed since `fecha_marcado`), and
the loss is not yet covered by scheduled debits plus absorption; moreover
for a record marked at `T` with neither flag set the gate is closed at
`T + (dias - 1)` days and open at `T + dias` days. -/
theorem c7_eligibility_gate (now dias T : Int) (items : List Apelacion) (item : Apelacion) :
    (item ∈ api_apelaciones_descuentos now dias items "" "" "" true false false false
      ↔ item ∈ items
        ∧ 0 < _calcular_perdida item
        ∧ (item.sede_decidio_no_apelar = true ∨ item.monto_devuelto.isSome = true
            ∨ _apelacion_plazo_vencido now item dias = true)
        ∧ _total_descuentos_programados item + _monto_empresa_asume item < _calcular_perdida item)
    ∧ (item.fecha_marcado = some T → item.sede_decidio_no_apelar = false →
        item.monto_devuelto = none → 1 ≤ dias →
        _apelacion_plazo_vencido (T + 86400 * (dias - 1)) item dias = false)
    ∧ (item.fecha_marcado = some T → item.sede_decidio_no_apelar = false →
        item.monto_devuelto = none →
        _apelacion_plazo_vencido (T + 86400 * dias) item dias = true) := by
  have hgate_iff : (item.sede_decidio_no_apelar || item.monto_devuelto.isSome
      || _apelacion_plazo_vencido now item dias) = true
      ↔ (item.sede_decidio_no_apelar = true ∨ item.monto_devuelto.isSome = true
          ∨ _apelacion_plazo_vencido now item dias = true) := by
    rw [Bool.or_eq_true, Bool.or_eq_true, or_assoc]
  refine ⟨?_, ?_, ?_⟩
  · unfold api_apelaciones_descuentos
    rw [List.mem_filter]
    constructor
    · rintro ⟨hm, hp⟩
      refine ⟨hm, ?_⟩
      by_cases h1 : _calcular_perdida item ≤ 0
      · exfalso
        revert hp
        simp [h1]
      by_cases h2 : (item.sede_decidio_no_apelar || item.monto_devuelto.isSome
          || _apelacion_plazo_vencido now item dias) = true
      swap
      · exfalso
        revert hp
        simp only [Bool.not_eq_true] at h2
        simp [h1, h2]
      by_cases h3 : _calcular_perdida item
          ≤ _total_descuentos_programados item + _monto_empresa_asume item
      · exfalso
        revert hp
        simp [h1, h2, h3]
      · exact ⟨not_le.mp h1, hgate_iff.mp h2, not_le.mp h3⟩
    · rintro ⟨hm, hpos, hgate, hcov⟩
      refine ⟨hm, ?_⟩
      simp [not_le.mpr hpos, hgate_iff.mpr hgate, not_le.mpr hcov]
  · intro hT hsede hmd hdias
    unfold _apelacion_plazo_vencido
    rw [hT, hmd, hsede]
    simp only [Option.isSome_none, Bool.false_eq_true, if_false]
    have harith : T + 86400 * (dias - 1) - T = 86400 * (dias - 1) := by ring
    rw [harith, Int.mul_fdiv_cancel_left _ (by norm_num)]
    simp only [ge_iff_le, decide_eq_false_iff_not, not_le]
    omega
  · intro hT hsede hmd
    unfold _apelacion_plazo_vencido
    rw [hT, hmd, hsede]
    simp only [Option.isSome_none, Bool.false_eq_true, if_false]
    have harith : T + 86400 * dias - T = 86400 * dias := by ring
    rw [harith, Int.mul_fdiv_cancel_left _ (by norm_num)]
    simp

/-- C7 witness: a record with withheld amount 100 marked at epoch 0 and a
5-day grace period: the window is still closed at day 4 and open at day 5,
when the record enters the debit listing. -/
theorem c7_eligibility_gate_witness :
    _apelacion_plazo_vencido (0 + 86400 * (5 - 1))
        { codigo := "C2", monto_descontado := 100, fecha_marcado := some 0 } 5 = false
    ∧ _apelacion_plazo_vencido (0 + 86400 * 5)
        { codigo := "C2", monto_descontado := 100, fecha_marcado := some 0 } 5 = true
    ∧ ({ codigo := "C2", monto_descontado := 100, fecha_marcado := some 0 : Apelacion }
        ∈ api_apelaciones_descuentos (0 + 86400 * 5) 5
            [{ codigo := "C2", monto_descontado := 100, fecha_marcado := some 0 }]
            "" "" "" true false false false) := by
  have h := c7_eligibility_gate (0 + 86400 * 5) 5 0
    [{ codigo := "C2", monto_descontado := 100, fecha_marcado := some 0 }]
    { codigo := "C2", monto_descontado := 100, fecha_marcado := some 0 }
  refine ⟨h.2.1 rfl rfl rfl (by norm_num), h.2.2 rfl rfl rfl, ?_⟩
  exact h.1.mpr ⟨by simp, of_decide_eq_true (by with_unfolding_all rfl),
    Or.inr (Or.inr (h.2.2 rfl rfl rfl)), of_decide_eq_true (by with_unfolding_all rfl)⟩

/-- C8 counterexample: mark an order, let the site decline
(`sede_decidio_no_apelar := True`), then record an appeal response —
`api_apelar` never checks the declined flag, so the sequence succeeds and
leaves a record with `sede_decidio_no_apelar = true` AND
`monto_devuelto` set, violating the claimed mutual exclusion. -/
theorem c8_counterexample :
    ((api_marcar_apelacion 0 [] "D1" "" "" 50000 "" "").bind (fun i1 =>
      (api_no_apelar i1 "D1").bind (fun i2 =>
        api_apelar 10 i2 "D1" 50000 ""))).toOption.map
      (fun items => items.map (fun ap =>
        (ap.sede_decidio_no_apelar, ap.monto_devuelto.isSome)))
      = some [(true, true)] := by
  with_unfolding_all rfl

/-- C8 (amended): the exclusion is enforced in one direction only:
`api_no_apelar` (declineAppeal) fails with 400 whenever `monto_devuelto` is
already set, but `api_apelar` (recordAppealResponse) does not check
`sede_decidio_no_apelar`, so appealing a declined record succeeds and sets
both fields (see the counterexample). -/
theorem c8_decline_blocked_after_appeal (items : List Apelacion) (codigo : String)
    (ap : Apelacion)
    (hcod : pyStrip codigo ≠ "")
    (hget : _get_apelacion_by_codigo items (pyStrip codigo) = some ap)
    (hmd : ap.monto_devuelto.isSome = true) :
    api_no_apelar items codigo = .error (.badRequest "Esta orden ya fue apelada") := by
  unfold api_no_apelar
  simp only [if_neg hcod, hget, hmd, if_true]

/-- C8 witness: declining an already-appealed record fails. -/
theorem c8_decline_blocked_after_appeal_witness :
    api_no_apelar [{ codigo := "D2", monto_descontado := 100, monto_devuelto := some 80 }]
        "D2" = .error (.badRequest "Esta orden ya fue apelada") :=
  c8_decline_blocked_after_appeal
    [{ codigo := "D2", monto_descontado := 100, monto_devuelto := some 80 }] "D2"
    { codigo := "D2", monto_descontado := 100, monto_devuelto := some 80 }
    (by decide) rfl rfl

/-! ## Notifications (`main.py:76-144`) -/

/-- A stored notification (`notificaciones.json` item).  `id` is the
`uuid4` the source generates; the `data` payload is out of scope. -/
structure Notif where
  id : String
  «local» : String
  tipo : String := ""
  titulo : String := ""
  mensaje : String := ""
  leida : Bool := false
  fecha : String := ""
  route_name : String := ""
deriving DecidableEq

/-- Model of `MAX_NOTIFS_PER_SEDE` (`main.py:76`). -/
def MAX_NOTIFS_PER_SEDE : Nat := 100

/-- Model of `_create_notificacion` (`main.py:112-144`): insert the new notification
first, then trim the same-`local` notifications beyond the newest 100 by
collecting their ids and dropping every item carrying one of those ids.
The WebSocket broadcast is a side effect outside the stored state. -/
def _create_notificacion (items : List Notif) (notif : Notif) : List Notif :=
  let items := notif :: items
  let sede_items := items.filter (fun i => i.«local» = notif.«local»)
  if sede_items.length > MAX_NOTIFS_PER_SEDE then
    let remove_ids := (sede_items.drop MAX_NOTIFS_PER_SEDE).map (fun i => i.id)
    items.filter (fun i => i.id ∉ remove_ids)
  else items

theorem create_notificacion_eq_of_gt (items : List Notif) (notif : Notif)
    (h : (((notif :: items).filter
        (fun i => i.«local» = notif.«local»)).length > MAX_NOTIFS_PER_SEDE)) :
    _create_notificacion items notif
      = (notif :: items).filter (fun i => i.id ∉
          (((notif :: items).filter
            (fun i => i.«local» = notif.«local»)).drop MAX_NOTIFS_PER_SEDE).map
            (fun i => i.id)) := by
  unfold _create_notificacion
  exact if_pos h

theorem create_notificacion_eq_of_le (items : List Notif) (notif : Notif)
    (h : ¬ (((notif :: items).filter
        (fun i => i.«local» = notif.«local»)).length > MAX_NOTIFS_PER_SEDE)) :
    _create_notificacion items notif = notif :: items := by
  unfold _create_notificacion
  exact if_neg h

/-- C10: after creating a notification for a `local`, at most 100
notifications of that `local` remain, the newest sits first, and
notifications of every other `local` are untouched.  Hypothesis: stored
notification ids are pairwise distinct (the source generates them with
`uuid4`). -/
theorem c10_notification_cap (items : List Notif) (notif : Notif)
    (hids : ((notif :: items).map (fun i => i.id)).Nodup) :
    ((_create_notificacion items notif).filter
        (fun i => i.«local» = notif.«local»)).length ≤ MAX_NOTIFS_PER_SEDE
    ∧ (_create_notificacion items notif).filter (fun i => ¬ i.«local» = notif.«local»)
        = items.filter (fun i => ¬ i.«local» = notif.«local»)
    ∧ (_create_notificacion items notif).head? = some notif := by
  have hnid : notif.id ∉ items.map (fun i => i.id) := by
    rw [List.map_cons] at hids
    exact (List.nodup_cons.mp hids).1
  set items' := notif :: items with hitems'
  set sede := items'.filter (fun i => i.«local» = notif.«local») with hsede
  by_cases hlen : sede.length > MAX_NOTIFS_PER_SEDE
  · rw [create_notificacion_eq_of_gt items notif hlen]
    set rm := (sede.drop MAX_NOTIFS_PER_SEDE).map (fun i => i.id) with hrm
    have hinj : ∀ x ∈ items', ∀ y ∈ items', x.id = y.id → x = y := by
      intro x hx y hy hxy
      exact List.inj_on_of_nodup_map hids hx hy hxy
    have hdropmem : ∀ y ∈ sede.drop MAX_NOTIFS_PER_SEDE,
        y ∈ items' ∧ y.«local» = notif.«local» := by
      intro y hy
      have hy' : y ∈ sede := List.mem_of_mem_drop hy
      rw [hsede, List.mem_filter] at hy'
      exact ⟨hy'.1, by simpa using hy'.2⟩
    have hid_notin : ∀ i ∈ items', i ∉ sede.drop MAX_NOTIFS_PER_SEDE → i.id ∉ rm := by
      intro i hi hnd hmem
      rw [hrm, List.mem_map] at hmem
      obtain ⟨y, hy, hyid⟩ := hmem
      have := hinj y (hdropmem y hy).1 i hi hyid
      exact hnd (this ▸ hy)
    have hsede_eq : sede
        = notif :: items.filter (fun i => i.«local» = notif.«local») := by
      rw [hsede, hitems', List.filter_cons_of_pos (by simp)]
    have hnotif_not_drop : notif ∉ sede.drop MAX_NOTIFS_PER_SEDE := by
      intro hmem
      rw [hsede_eq, show MAX_NOTIFS_PER_SEDE = 99 + 1 from rfl,
        List.drop_succ_cons] at hmem
      have h1 : notif ∈ items.filter (fun i => i.«local» = notif.«local») :=
        List.mem_of_mem_drop hmem
      have h2 : notif ∈ items := (List.mem_filter.mp h1).1
      exact hnid (List.mem_map_of_mem _ h2)
    have hnotif_id : notif.id ∉ rm :=
      hid_notin notif (by rw [hitems']; exact List.mem_cons_self _ _) hnotif_not_drop
    refine ⟨?_, ?_, ?_⟩
    · rw [List.filter_comm]
      rw [← hsede]
      conv_lhs => rw [← List.take_append_drop MAX_NOTIFS_PER_SEDE sede]
      rw [List.filter_append]
      have hdrop_nil : List.filter (fun i => decide (i.id ∉ rm))
          (sede.drop MAX_NOTIFS_PER_SEDE) = [] := by
        rw [List.filter_eq_nil_iff]
        intro y hy
        simp only [decide_eq_true_eq, Decidable.not_not]
        exact List.mem_map_of_mem _ hy
      rw [hdrop_nil, List.append_nil]
      calc (List.filter (fun i => decide (i.id ∉ rm))
            (sede.take MAX_NOTIFS_PER_SEDE)).length
          ≤ (sede.take MAX_NOTIFS_PER_SEDE).length := List.length_filter_le _ _
        _ ≤ MAX_NOTIFS_PER_SEDE := List.length_take_le _ _
    · rw [List.filter_comm, List.filter_eq_self.mpr,
        List.filter_cons_of_neg (by simp)]
      intro i hi
      rw [List.mem_filter] at hi
      obtain ⟨hi1, hl⟩ := hi
      simp only [decide_eq_true_eq] at hl ⊢
      apply hid_notin i hi1
      intro hmem
      exact hl (hdropmem i hmem).2
    · rw [List.filter_cons_of_pos (by simpa using hnotif_id)]
      rfl
  · rw [create_notificacion_eq_of_le items notif hlen]
    refine ⟨?_, ?_, ?_⟩
    · rw [← hitems', ← hsede]
      exact Nat.le_of_not_lt hlen
    · rw [← hitems', hitems', List.filter_cons_of_neg (by simp)]
    · rfl

/-- C10 witness: two stored notifications, one of another `local`; creating
a new one keeps the other `local` intact and the count within the cap. -/
theorem c10_notification_cap_witness :
    ((_create_notificacion
        [{ id := "i1", «local» := "SedeA" }, { id := "i2", «local» := "SedeB" }]
        { id := "i3", «local» := "SedeA" }).filter
          (fun i => i.«local» = ({ id := "i3", «local» := "SedeA" } : Notif).«local»)).length
        ≤ MAX_NOTIFS_PER_SEDE
    ∧ (_create_notificacion
        [{ id := "i1", «local» := "SedeA" }, { id := "i2", «local» := "SedeB" }]
        { id := "i3", «local» := "SedeA" }).filter
          (fun i => ¬ i.«local» = ({ id := "i3", «local» := "SedeA" } : Notif).«local»)
        = [{ id := "i1", «local» := "SedeA" },
           { id := "i2", «local» := "SedeB" }].filter
          (fun i => ¬ i.«local» = ({ id := "i3", «local» := "SedeA" } : Notif).«local»)
    ∧ (_create_notificacion
        [{ id := "i1", «local» := "SedeA" }, { id := "i2", «local» := "SedeB" }]
        { id := "i3", «local» := "SedeA" }).head?
        = some { id := "i3", «local» := "SedeA" } :=
  c10_notification_cap
    [{ id := "i1", «local» := "SedeA" }, { id := "i2", «local» := "SedeB" }]
    { id := "i3", «local» := "SedeA" } (by decide)
